import Mathlib

/-!
Verification development for the sequential scene-consistency and
verse-progression engine of the gerador-desenhos-animados repository.

The source is a React component (src/components/ImageGenerator.tsx) plus a
service module (src/unnamed/part_000, the Gemini service adapter).  We embed:

* the JavaScript character classes used by the reference regex and trim;
* parseBibleRef / formatBibleRef / getNextVerseRef (the regex
  /^(.*\D)\s*(\d+):(\d+)$/ is compiled to an explicit backtracking search);
* writeString / createWavBlob (DataView byte writes over an ArrayBuffer);
* the component state and the event handlers handleGeneratePrompt,
  handleGenerateImage, handleGenerateNextVerse, handleFetchVerseText,
  handleGenerateAudioClick, handleStartNew, with the asynchronous service
  results passed in as explicit parameters;
* the service-side result classification of generateImagePrompt and
  getVerseText from the adapter module;
* an audio-session model tracking object-URL creation/revocation together
  with the React useEffect cleanup of the component.
-/

/-- JavaScript whitespace: the set matched by the regex class \s, which is
also exactly the set stripped by String.prototype.trim
(WhiteSpace ∪ LineTerminator in the ECMAScript standard). -/
def isJsSpace (c : Char) : Bool :=
  decide (c.toNat = 32) || decide (9 ≤ c.toNat ∧ c.toNat ≤ 13) ||
  decide (c.toNat = 160) || decide (c.toNat = 5760) ||
  decide (8192 ≤ c.toNat ∧ c.toNat ≤ 8202) || decide (c.toNat = 8232) ||
  decide (c.toNat = 8233) || decide (c.toNat = 8239) ||
  decide (c.toNat = 8287) || decide (c.toNat = 12288) ||
  decide (c.toNat = 65279)

/-- ECMAScript LineTerminator characters: LF, CR, LS, PS.  The regex
metacharacter . (without the dotAll flag) matches any character except
these. -/
def isLineTerm (c : Char) : Bool :=
  decide (c.toNat = 10) || decide (c.toNat = 13) ||
  decide (c.toNat = 8232) || decide (c.toNat = 8233)

/-- The regex class \d, that is [0-9]. -/
def isJsDigit (c : Char) : Bool :=
  decide (48 ≤ c.toNat ∧ c.toNat ≤ 57)

/-- String.prototype.trim on a character list: strip JS whitespace from
both ends. -/
def jsTrim (l : List Char) : List Char :=
  ((l.dropWhile isJsSpace).reverse.dropWhile isJsSpace).reverse

/-- String.prototype.trim on a Lean string. -/
def jsTrimStr (s : String) : String :=
  String.mk (jsTrim s.toList)

/-- JavaScript String.prototype.includes: substring containment. -/
def containsSubList (l pat : List Char) : Bool :=
  (List.range (l.length + 1)).any (fun i => pat.isPrefixOf (l.drop i))

/-- JavaScript String.prototype.includes on Lean strings. -/
def containsSub (s pat : String) : Bool :=
  containsSubList s.toList pat.toList

/-- JavaScript Error.prototype.toString for an error constructed as
new Error(msg): the string "Error: " followed by the message. -/
def errToString (msg : String) : String :=
  "Error: " ++ msg

/-- parseInt(digits, 10) on a non-empty all-digit string (the only use
site in the source feeds it regex captures of \d+).  The source returns
an IEEE-754 double; this model is the exact integer value of the digits,
which coincides with the source exactly for values up to 2^53, the range
on which doubles represent integers exactly.  The theorem for claim C6
confines its numeric conclusions to that range. -/
def natOfDigits (l : List Char) : Nat :=
  l.foldl (fun n c => 10 * n + (c.toNat - 48)) 0

/-- The structured reference produced by parseBibleRef:
{ book: string; chapter: number; verse: number }. -/
structure ScriptureRef where
  book : String
  chapter : Nat
  verse : Nat
  deriving DecidableEq, Repr

/-- The tail of the reference regex, \s*(\d+):(\d+)$, matched against a
character list; returns the two captures (chapter digits, verse digits).

This is the compiled form of the backtracking regex engine on this tail:
\s* takes the maximal whitespace run (shrinking it can never help because a
whitespace character is not a digit, so \d+ would still fail at the same
character); the first \d+ takes the maximal digit run (shrinking it leaves
a digit where the literal : is required); the second \d+ followed by $
succeeds exactly when the rest is a non-empty all-digit string (shrinking
it leaves a digit where the end of input is required). -/
def matchTailRef (t : List Char) : Option (List Char × List Char) :=
  let t1 := t.dropWhile isJsSpace
  let c := t1.takeWhile isJsDigit
  let t2 := t1.dropWhile isJsDigit
  if c.isEmpty then none
  else
    match t2 with
    | ':' :: t3 =>
        if t3.isEmpty then none
        else if t3.all isJsDigit then some (c, t3) else none
    | _ => none

/-- One backtracking attempt of ^(.*\D)\s*(\d+):(\d+)$ in which the .*
part consumes exactly n characters: \D must then match the single
character at index n (any non-digit, line terminators included), and the
tail regex must match the remainder.  Returns (group 1, group 2, group 3). -/
def tryAt (s : List Char) (n : Nat) : Option (List Char × List Char × List Char) :=
  match s.drop n with
  | [] => none
  | d :: rest =>
      if isJsDigit d then none
      else
        match matchTailRef rest with
        | some (c, v) => some (s.take (n + 1), c, v)
        | none => none

/-- The greedy backtracking loop on the .* of ^(.*\D)\s*(\d+):(\d+)$:
the engine first lets .* consume as much as possible and then retries with
shorter and shorter consumptions; searchFrom s n tries consumptions
n, n-1, ..., 0 in that order. -/
def searchFrom (s : List Char) : Nat → Option (List Char × List Char × List Char)
  | 0 => tryAt s 0
  | n + 1 =>
      match tryAt s (n + 1) with
      | some r => some r
      | none => searchFrom s n

/-- parseBibleRef from ImageGenerator.tsx:
ref.trim().match(/^(.*\D)\s*(\d+):(\d+)$/), returning
{ book: match[1].trim(), chapter: parseInt(match[2]), verse: parseInt(match[3]) }
or null.  The initial consumption of .* is bounded by the first line
terminator, because . does not match line terminators. -/
def parseBibleRef (ref : String) : Option ScriptureRef :=
  let t := jsTrim ref.toList
  match searchFrom t (t.takeWhile (fun c => !isLineTerm c)).length with
  | some (g1, c, v) =>
      some { book := String.mk (jsTrim g1), chapter := natOfDigits c, verse := natOfDigits v }
  | none => none

/-- formatBibleRef from ImageGenerator.tsx: the template literal
book + " " + chapter + ":" + verse.  The source stringifies JS doubles;
for integral values up to 2^53 (well below the 1e21 threshold where
number stringification switches to exponential notation) that
stringification is the exact decimal numeral modelled here by the Nat
decimal representation.  The theorem for claim C6 confines its numeric
conclusions to that range. -/
def formatBibleRef (r : ScriptureRef) : String :=
  r.book ++ " " ++ toString r.chapter ++ ":" ++ toString r.verse

/-! ## The WAV container encoder (createWavBlob) -/

/-- DataView.prototype.setUint8: store value mod 2^8 at the byte offset.
The ArrayBuffer is modelled as a list of byte values. -/
def setUint8 (buf : List Nat) (off v : Nat) : List Nat :=
  buf.set off (v % 256)

/-- DataView.prototype.setUint16 with littleEndian = true: store value
mod 2^16 as two bytes, low byte first. -/
def setUint16le (buf : List Nat) (off v : Nat) : List Nat :=
  setUint8 (setUint8 buf off (v % 65536)) (off + 1) (v % 65536 / 256)

/-- DataView.prototype.setUint32 with littleEndian = true: store value
mod 2^32 as four bytes, low byte first. -/
def setUint32le (buf : List Nat) (off v : Nat) : List Nat :=
  setUint8 (setUint8 (setUint8 (setUint8 buf off (v % 4294967296))
    (off + 1) (v % 4294967296 / 256)) (off + 2) (v % 4294967296 / 65536))
    (off + 3) (v % 4294967296 / 16777216)

/-- writeString from ImageGenerator.tsx: for each index i of the string,
view.setUint8(offset + i, string.charCodeAt(i)). -/
def writeString (buf : List Nat) (off : Nat) : List Char → List Nat
  | [] => buf
  | c :: cs => writeString (setUint8 buf off c.toNat) (off + 1) cs

/-- The PCM copy loop of createWavBlob: for each index i of the data,
view.setUint8(44 + i, pcmData[i]); generalized to an arbitrary start
offset. -/
def writeBytes (buf : List Nat) (off : Nat) : List Nat → List Nat
  | [] => buf
  | b :: bs => writeBytes (setUint8 buf off b) (off + 1) bs

/-- createWavBlob from ImageGenerator.tsx, after the base64 payload has
been decoded to raw PCM bytes: allocate a zeroed buffer of 44 + dataSize
bytes and perform exactly the DataView writes of the source. -/
def createWavBytes (pcm : List Nat) : List Nat :=
  let sampleRate := 24000
  let numChannels := 1
  let bitsPerSample := 16
  let dataSize := pcm.length
  let buffer := List.replicate (44 + dataSize) 0
  let v0 := writeString buffer 0 "RIFF".toList
  let v1 := setUint32le v0 4 (36 + dataSize)
  let v2 := writeString v1 8 "WAVE".toList
  let v3 := writeString v2 12 "fmt ".toList
  let v4 := setUint32le v3 16 16
  let v5 := setUint16le v4 20 1
  let v6 := setUint16le v5 22 numChannels
  let v7 := setUint32le v6 24 sampleRate
  let v8 := setUint32le v7 28 (sampleRate * numChannels * (bitsPerSample / 8))
  let v9 := setUint16le v8 32 (numChannels * (bitsPerSample / 8))
  let v10 := setUint16le v9 34 bitsPerSample
  let v11 := writeString v10 36 "data".toList
  let v12 := setUint32le v11 40 dataSize
  writeBytes v12 44 pcm

/-- Decode an unsigned 16-bit little-endian field of a byte buffer. -/
def readU16le (buf : List Nat) (off : Nat) : Nat :=
  buf.getD off 0 + 256 * buf.getD (off + 1) 0

/-- Decode an unsigned 32-bit little-endian field of a byte buffer. -/
def readU32le (buf : List Nat) (off : Nat) : Nat :=
  buf.getD off 0 + 256 * buf.getD (off + 1) 0 + 65536 * buf.getD (off + 2) 0 +
    16777216 * buf.getD (off + 3) 0

/-- The 44-byte header that the spec describes for a PCM payload of n
bytes (little-endian fields, RIFF size 36+n, fmt sub-chunk 16/PCM/mono/
24000 Hz/48000 byte rate/block align 2/16 bits, data size n). -/
def wavHeaderBytes (n : Nat) : List Nat :=
  [82, 73, 70, 70,
   (36 + n) % 4294967296 % 256, (36 + n) % 4294967296 / 256 % 256,
   (36 + n) % 4294967296 / 65536 % 256, (36 + n) % 4294967296 / 16777216 % 256,
   87, 65, 86, 69,
   102, 109, 116, 32,
   16, 0, 0, 0,
   1, 0,
   1, 0,
   192, 93, 0, 0,
   128, 187, 0, 0,
   2, 0,
   16, 0,
   100, 97, 116, 97,
   n % 4294967296 % 256, n % 4294967296 / 256 % 256,
   n % 4294967296 / 65536 % 256, n % 4294967296 / 16777216 % 256]

/-! ## The component state and the service results -/

/-- The result of an awaited service call as observed by a handler: either
the resolved value or a thrown Error carrying its message string. -/
inductive JsResult (α : Type) where
  | ok (val : α)
  | thrown (msg : String)
  deriving DecidableEq, Repr

/-- SceneGenerationResult from the service module: the scene prompt plus
the character-description record.  A JavaScript string-keyed object is
modelled as an insertion-ordered association list with unique keys. -/
structure SceneGenerationResult where
  scenePrompt : String
  characterDescriptions : List (String × String)
  deriving DecidableEq, Repr

/-- JavaScript property assignment acc[name] = desc on a string-keyed
object: update in place when the key exists, append otherwise. -/
def recordSet (m : List (String × String)) (k v : String) : List (String × String) :=
  if m.any (fun p => p.1 = k) then
    m.map (fun p => if p.1 = k then (k, v) else p)
  else
    m ++ [(k, v)]

/-- The reduce of generateImagePrompt that turns the characterDescriptions
array of {name, description} objects into a record. -/
def buildCharMap (l : List (String × String)) : List (String × String) :=
  l.foldl (fun acc p => recordSet acc p.1 p.2) []

/-- The parsed JSON payload of the scene-description response, after
extractJsonString and JSON.parse have succeeded (interface ApiResponse in
the service module). -/
structure ApiResponse where
  scenePrompt : Option String
  characterDescriptions : Option (List (String × String))
  error : Option String
  deriving DecidableEq, Repr

/-- The result classification of generateImagePrompt on a parsed response
(service module lines 127-152): an error field equal to VERSE_NOT_FOUND
throws Error("VERSE_NOT_FOUND") before anything else is inspected; a
missing or falsy scenePrompt (JavaScript treats the empty string as falsy)
or a missing characterDescriptions field throws the missing-fields error;
otherwise the character array is reduced to a record and returned with the
scene prompt. -/
def generateImagePromptFromResponse (r : ApiResponse) : JsResult SceneGenerationResult :=
  if r.error = some "VERSE_NOT_FOUND" then
    .thrown "VERSE_NOT_FOUND"
  else
    match r.scenePrompt, r.characterDescriptions with
    | some sp, some cds =>
        if sp = "" then .thrown "Resposta da IA com campos ausentes."
        else .ok { scenePrompt := sp, characterDescriptions := buildCharMap cds }
    | _, _ => .thrown "Resposta da IA com campos ausentes."

/-- The state held by the ImageGenerator component (its useState hooks).
The aspect-ratio selection is stored in the field named aspect; the
generated object URL is modelled by a numeric handle. -/
structure CompState where
  bibleReference : String
  promptText : String
  characterDescriptions : Option (List (String × String))
  isSequenceActive : Bool
  isPromptLoading : Bool
  promptError : Option String
  isImageLoading : Bool
  generatedImage : Option String
  imageError : Option String
  aspect : String
  language : String
  voiceType : String
  isAudioLoading : Bool
  audioError : Option String
  generatedAudioUrl : Option Nat
  narratedText : Option String
  textForNarration : String
  isFetchingVerse : Bool
  deriving DecidableEq, Repr

/-- The initial component state (the useState initial values). -/
def initialState : CompState where
  bibleReference := ""
  promptText := ""
  characterDescriptions := none
  isSequenceActive := false
  isPromptLoading := false
  promptError := none
  isImageLoading := false
  generatedImage := none
  imageError := none
  aspect := "9:16"
  language := "pt-BR"
  voiceType := "adulta"
  isAudioLoading := false
  audioError := none
  generatedAudioUrl := none
  narratedText := none
  textForNarration := ""
  isFetchingVerse := false

/-- The retry-suggesting message used by the prompt, image and next-verse
handlers for errors whose text contains 500 or Rpc failed. -/
def msgServerRetryLong : String :=
  "Ocorreu um erro de comunicação com o servidor. Por favor, tente novamente em alguns instantes."

/-- The retry-suggesting message used by the verse-text and audio handlers. -/
def msgServerRetryShort : String :=
  "Ocorreu um erro de comunicação com o servidor. Por favor, tente novamente."

/-- The chapter-boundary message surfaced on VERSE_NOT_FOUND. -/
def msgChapterEnd : String :=
  "Fim do capítulo. Inicie uma nova cena."

/-- The generic fallback of handleGenerateNextVerse. -/
def msgNextVerseFallback : String :=
  "Falha ao gerar o próximo versículo."

/-- err.toString().includes("500") || err.toString().includes("Rpc failed"),
the transient-error sniffing shared by every catch block. -/
def isTransientMsg (msg : String) : Bool :=
  containsSub (errToString msg) "500" || containsSub (errToString msg) "Rpc failed"

/-- err.message || fallback: JavaScript falls back when the message is the
empty string. -/
def msgOr (msg fallback : String) : String :=
  if msg = "" then fallback else msg

/-- getNextVerseRef from ImageGenerator.tsx: format the parsed current
reference with verse + 1, or the empty string when parsing fails. -/
def getNextVerseRef (s : CompState) : String :=
  match parseBibleRef s.bibleReference with
  | some p => formatBibleRef { p with verse := p.verse + 1 }
  | none => ""

/-- handleStartNew from ImageGenerator.tsx. -/
def handleStartNew (s : CompState) : CompState :=
  { s with isSequenceActive := false, characterDescriptions := none,
           generatedImage := none, imageError := none, promptError := none,
           promptText := "", bibleReference := "", generatedAudioUrl := none,
           textForNarration := "", narratedText := none }

/-- handleGeneratePrompt from ImageGenerator.tsx, with the awaited result
of generateImagePrompt(bibleReference) passed in.  The only synchronous
precondition is a non-blank reference. -/
def handleGeneratePrompt (s : CompState) (res : JsResult SceneGenerationResult) : CompState :=
  if jsTrimStr s.bibleReference = "" then s
  else
    let s1 := { s with isSequenceActive := false, characterDescriptions := none,
                       generatedImage := none, imageError := none, promptError := none,
                       promptText := "", generatedAudioUrl := none,
                       textForNarration := "", narratedText := none,
                       isPromptLoading := true }
    let s2 :=
      match res with
      | .ok r =>
          { s1 with promptText := r.scenePrompt,
                    characterDescriptions := some r.characterDescriptions }
      | .thrown msg =>
          if isTransientMsg msg then
            { s1 with promptError := some msgServerRetryLong }
          else
            { s1 with promptError := some (msgOr msg "Ocorreu um erro ao gerar o prompt. Tente um versículo diferente.") }
    { s2 with isPromptLoading := false }

/-- handleGenerateImage from ImageGenerator.tsx, with the awaited result
of generateImage(promptText, aspectRatio) passed in.  Its synchronous
precondition checks a non-blank prompt and its own isImageLoading flag. -/
def handleGenerateImage (s : CompState) (res : JsResult String) : CompState :=
  if jsTrimStr s.promptText = "" ∨ s.isImageLoading then s
  else
    let s1 := { s with isImageLoading := true, imageError := none, generatedImage := none }
    let s2 :=
      match res with
      | .ok imageBase64 =>
          { s1 with generatedImage := some ("data:image/jpeg;base64," ++ imageBase64),
                    isSequenceActive := true }
      | .thrown msg =>
          if isTransientMsg msg then
            { s1 with imageError := some msgServerRetryLong }
          else
            { s1 with imageError := some (msgOr msg "Ocorreu um erro ao gerar a imagem. Por favor, tente novamente.") }
    { s2 with isImageLoading := false }

/-- The catch block of handleGenerateNextVerse: the VERSE_NOT_FOUND test
on err.message comes first, then the transient sniffing, then the generic
fallback; every branch restores bibleReference to lastValidRef. -/
def nextVerseCatch (s : CompState) (lastValidRef msg : String) : CompState :=
  if containsSub msg "VERSE_NOT_FOUND" then
    { s with imageError := some msgChapterEnd, isSequenceActive := false,
             bibleReference := lastValidRef }
  else if isTransientMsg msg then
    { s with imageError := some msgServerRetryLong, bibleReference := lastValidRef }
  else
    { s with imageError := some (msgOr msg msgNextVerseFallback),
             bibleReference := lastValidRef }

/-- handleGenerateNextVerse from ImageGenerator.tsx (the advanceSequence
operation), with the awaited results of the scene-description call and of
the image call passed in.  When the scene call throws, the image call is
never issued, so its result parameter is ignored on that path.
The handler speculatively sets bibleReference to the next verse inside the
try block after saving lastValidRef. -/
def handleGenerateNextVerse (s : CompState) (sceneRes : JsResult SceneGenerationResult)
    (imgRes : JsResult String) : CompState :=
  let nextVerseRef := getNextVerseRef s
  if nextVerseRef = "" ∨ s.characterDescriptions = none then s
  else
    let s1 := { s with isImageLoading := true, imageError := none, promptError := none }
    let lastValidRef := s1.bibleReference
    let s2 := { s1 with bibleReference := nextVerseRef }
    let s3 :=
      match sceneRes with
      | .thrown msg => nextVerseCatch s2 lastValidRef msg
      | .ok r =>
          let s2a := { s2 with promptText := r.scenePrompt,
                               characterDescriptions := some r.characterDescriptions }
          match imgRes with
          | .thrown msg => nextVerseCatch s2a lastValidRef msg
          | .ok imageBase64 =>
              { s2a with generatedImage := some ("data:image/jpeg;base64," ++ imageBase64),
                         isSequenceActive := true }
    { s3 with isImageLoading := false }

/-- handleFetchVerseText from ImageGenerator.tsx, with the awaited result
of getVerseText(bibleReference, language) passed in.  Its synchronous
precondition checks a non-blank reference and its own isFetchingVerse
flag. -/
def handleFetchVerseText (s : CompState) (res : JsResult String) : CompState :=
  if jsTrimStr s.bibleReference = "" ∨ s.isFetchingVerse then s
  else
    let s1 := { s with isFetchingVerse := true, audioError := none, textForNarration := "" }
    let s2 :=
      match res with
      | .ok verseText => { s1 with textForNarration := verseText }
      | .thrown msg =>
          if isTransientMsg msg then
            { s1 with audioError := some msgServerRetryShort }
          else
            { s1 with audioError := some "Ocorreu um erro ao buscar o texto. Verifique a referência ou tente novamente." }
    { s2 with isFetchingVerse := false }

/-- handleGenerateAudioClick from ImageGenerator.tsx, with the awaited
result of generateSpeech passed in and the fresh object-URL handle that
URL.createObjectURL would return supplied by the environment.  Its
synchronous precondition checks a non-blank narration text and its own
isAudioLoading flag. -/
def handleGenerateAudioClick (s : CompState) (res : JsResult String) (newHandle : Nat) : CompState :=
  if jsTrimStr s.textForNarration = "" ∨ s.isAudioLoading then s
  else
    let s1 := { s with isAudioLoading := true, audioError := none,
                       generatedAudioUrl := none, narratedText := none }
    let s2 :=
      match res with
      | .ok _audioBase64 =>
          { s1 with generatedAudioUrl := some newHandle,
                    narratedText := some s1.textForNarration }
      | .thrown msg =>
          if isTransientMsg msg then
            { s1 with audioError := some msgServerRetryShort }
          else
            { s1 with audioError := some "Ocorreu um erro ao gerar o áudio. Por favor, tente novamente." }
    { s2 with isAudioLoading := false }

/-! ## The verse-text service call -/

/-- languageMap from the service module. -/
def languageMap : List (String × String) :=
  [("pt-BR", "Português (Brasil)"), ("en-US", "Inglês (EUA)"),
   ("es-ES", "Espanhol (Espanha)"), ("fr-FR", "Francês (França)"),
   ("de-DE", "Alemão (Alemanha)")]

/-- The property names that a JavaScript object literal inherits from
Object.prototype: the ECMAScript standard set (constructor,
hasOwnProperty, isPrototypeOf, propertyIsEnumerable, toLocaleString,
toString, valueOf) together with the Annex B additions present in web
engines.  Every one of them resolves to a function or object value and is
therefore truthy. -/
def objectProtoKeys : List String :=
  ["constructor", "hasOwnProperty", "isPrototypeOf", "propertyIsEnumerable",
   "toLocaleString", "toString", "valueOf", "__proto__", "__defineGetter__",
   "__defineSetter__", "__lookupGetter__", "__lookupSetter__"]

/-- The value of languageMap[language] || "Português (Brasil)": either a
proper string (an own value of the map, or the fallback when the property
access yields undefined), or a truthy non-string value inherited from
Object.prototype, which the || keeps.  Interpolating such an inherited
value into the prompt stringifies it in an implementation-defined way, so
the model records only which key was hit. -/
inductive LanguageName where
  | str (value : String)
  | protoValue (key : String)
  deriving DecidableEq, Repr

/-- languageMap[language] || "Português (Brasil)" from getVerseText: an
own key of the object literal resolves to its stored string (non-empty,
hence truthy); any other key consults the prototype chain, where the
Object.prototype property names produce truthy non-string values that
suppress the fallback; only a key absent from both falls back to
Brazilian Portuguese. -/
def resolveLanguageName (language : String) : LanguageName :=
  match languageMap.find? (fun p => p.1 = language) with
  | some p => .str p.2
  | none =>
      if language ∈ objectProtoKeys then .protoValue language
      else .str "Português (Brasil)"

/-- The request prompt of getVerseText as a function of the text that the
resolved language value interpolates to. -/
def verseTextPromptWith (bibleReference languageText : String) : String :=
  "Forneça o texto completo de \x27" ++ bibleReference ++
    "\x27 da Bíblia no idioma " ++ languageText ++
    ". Responda apenas com o texto do versículo, sem introduções ou explicações adicionais."

/-- The request prompt built by getVerseText: defined whenever the
language lookup resolves to a proper string; for a key hitting an
inherited Object.prototype value the interpolated text is
implementation-defined, and the model leaves the prompt unspecified. -/
def getVerseTextPrompt (bibleReference language : String) : Option String :=
  match resolveLanguageName language with
  | .str languageName => some (verseTextPromptWith bibleReference languageName)
  | .protoValue _ => none

/-- The result post-processing of getVerseText: trim the response text and
throw when it is empty. -/
def getVerseTextResult (responseText : String) : JsResult String :=
  let bibleText := jsTrimStr responseText
  if bibleText = "" then .thrown "Não foi possível obter o texto do versículo."
  else .ok bibleText

/-! ## The audio-handle lifecycle

The narration part of the component holds a platform object URL.  Three
pieces of the source interact with it: handleGenerateAudioClick revokes the
previously held URL before generating a new one (lines 265-267), the
useEffect keyed on [generatedAudioUrl] (lines 111-117) registers a cleanup
that revokes the URL captured at registration time and which React runs
when the dependency changes and on unmount, and handleStartNew /
handleGeneratePrompt simply set the state to null.  The model below tracks
the component state together with the registered effect cleanup and a log
of every URL.revokeObjectURL call; handles are numbered by creation
order. -/

/-- The narration-session state: the relevant useState hooks, the
dependency value for which the useEffect cleanup is currently registered
(the cleanup closure captures exactly this value), the next fresh handle
that URL.createObjectURL would return, and the log of revoke calls. -/
structure AudioSession where
  textForNarration : String
  isAudioLoading : Bool
  audioError : Option String
  generatedAudioUrl : Option Nat
  narratedText : Option String
  effectUrl : Option Nat
  nextHandle : Nat
  revoked : List Nat
  deriving DecidableEq, Repr

/-- One commit-and-effect pass of React: when generatedAudioUrl differs
from the dependency recorded at the last effect run, the registered
cleanup fires (revoking the captured URL when it is non-null) and the
effect re-registers for the current value. -/
def runAudioEffect (s : AudioSession) : AudioSession :=
  if s.generatedAudioUrl = s.effectUrl then s
  else
    match s.effectUrl with
    | some u => { s with revoked := s.revoked ++ [u], effectUrl := s.generatedAudioUrl }
    | none => { s with effectUrl := s.generatedAudioUrl }

/-- handleGenerateAudioClick projected onto the narration session.  The
synchronous phase revokes the held URL and clears the state; the state
updates flush (with an effect pass) when the handler suspends on the
awaited generateSpeech call; on resolution the new object URL is created
and stored (ok) or the error recorded (thrown), and a final commit runs
the effect pass again. -/
def handleAudioGenerate (s : AudioSession) (res : JsResult String) : AudioSession :=
  if jsTrimStr s.textForNarration = "" ∨ s.isAudioLoading then s
  else
    let s1 := { s with isAudioLoading := true, audioError := none }
    let s2 :=
      match s1.generatedAudioUrl with
      | some u => { s1 with revoked := s1.revoked ++ [u] }
      | none => s1
    let s3 := { s2 with generatedAudioUrl := none, narratedText := none }
    let s4 := runAudioEffect s3
    let s5 :=
      match res with
      | .ok _audioBase64 =>
          { s4 with generatedAudioUrl := some s4.nextHandle,
                    nextHandle := s4.nextHandle + 1,
                    narratedText := some s4.textForNarration }
      | .thrown msg =>
          if isTransientMsg msg then
            { s4 with audioError := some msgServerRetryShort }
          else
            { s4 with audioError := some "Ocorreu um erro ao gerar o áudio. Por favor, tente novamente." }
    let s6 := { s5 with isAudioLoading := false }
    runAudioEffect s6

/-- The narration-session events: a click of the generate-audio button
(with the outcome of the awaited speech call) or an edit of the narration
textarea. -/
inductive AudioEvent where
  | generate (res : JsResult String)
  | setText (t : String)
  deriving Repr

/-- One narration-session step. -/
def audioStep (s : AudioSession) : AudioEvent → AudioSession
  | .generate res => handleAudioGenerate s res
  | .setText t => { s with textForNarration := t }

/-- Run a sequence of narration-session events. -/
def audioRun (s : AudioSession) (evs : List AudioEvent) : AudioSession :=
  evs.foldl audioStep s

/-- Component teardown: React runs the registered cleanup one last time,
revoking the captured URL when it is non-null. -/
def audioUnmount (s : AudioSession) : AudioSession :=
  match s.effectUrl with
  | some u => { s with revoked := s.revoked ++ [u], effectUrl := none }
  | none => s

/-- The initial narration-session state. -/
def audioInit : AudioSession where
  textForNarration := ""
  isAudioLoading := false
  audioError := none
  generatedAudioUrl := none
  narratedText := none
  effectUrl := none
  nextHandle := 0
  revoked := []

/-! ## Properties of the WAV container encoder -/

theorem length_setUint8 (l : List Nat) (off v : Nat) :
    (setUint8 l off v).length = l.length := by
  simp [setUint8]

@[simp] theorem length_setUint16le (l : List Nat) (off v : Nat) :
    (setUint16le l off v).length = l.length := by
  simp [setUint16le, length_setUint8]

@[simp] theorem length_setUint32le (l : List Nat) (off v : Nat) :
    (setUint32le l off v).length = l.length := by
  simp [setUint32le, length_setUint8]

@[simp] theorem length_writeString (cs : List Char) (l : List Nat) (off : Nat) :
    (writeString l off cs).length = l.length := by
  induction cs generalizing l off with
  | nil => rfl
  | cons c cs ih => simp [writeString, ih, length_setUint8]

theorem setUint8_append (l r : List Nat) (off v : Nat) (h : off < l.length) :
    setUint8 (l ++ r) off v = setUint8 l off v ++ r := by
  simp [setUint8, List.set_append, h]

theorem setUint16le_append (l r : List Nat) (off v : Nat) (h : off + 2 ≤ l.length) :
    setUint16le (l ++ r) off v = setUint16le l off v ++ r := by
  simp [setUint16le]
  rw [setUint8_append _ _ _ _ (by omega), setUint8_append]
  rw [length_setUint8]; omega

theorem setUint32le_append (l r : List Nat) (off v : Nat) (h : off + 4 ≤ l.length) :
    setUint32le (l ++ r) off v = setUint32le l off v ++ r := by
  simp [setUint32le]
  rw [setUint8_append _ _ _ _ (by omega),
      setUint8_append _ _ _ _ (by rw [length_setUint8]; omega),
      setUint8_append _ _ _ _ (by rw [length_setUint8, length_setUint8]; omega),
      setUint8_append _ _ _ _ (by rw [length_setUint8, length_setUint8, length_setUint8]; omega)]

theorem writeString_append (cs : List Char) (l r : List Nat) (off : Nat)
    (h : off + cs.length ≤ l.length) :
    writeString (l ++ r) off cs = writeString l off cs ++ r := by
  induction cs generalizing l off with
  | nil => rfl
  | cons c cs ih =>
    simp only [writeString]
    rw [setUint8_append _ _ _ _ (by simp at h; omega)]
    rw [ih]
    rw [length_setUint8]
    simp at h; omega

theorem set_cons_at_length (l : List Nat) (x v : Nat) (t : List Nat) :
    (l ++ x :: t).set l.length v = l ++ v :: t := by
  rw [List.set_append]
  simp

theorem writeBytes_fill (data : List Nat) (l : List Nat) (off : Nat)
    (hoff : off = l.length) :
    writeBytes (l ++ List.replicate data.length 0) off data
      = l ++ data.map (fun b => b % 256) := by
  subst hoff
  induction data generalizing l with
  | nil => rfl
  | cons b bs ih =>
    show writeBytes ((l ++ (0 : Nat) :: List.replicate bs.length 0).set l.length (b % 256))
        (l.length + 1) bs = _
    rw [set_cons_at_length]
    have h1 : l ++ (b % 256) :: List.replicate bs.length 0
        = (l ++ [b % 256]) ++ List.replicate bs.length 0 := by simp
    have h2 : l.length + 1 = (l ++ [b % 256]).length := by simp
    rw [h1, h2, ih]
    simp

theorem createWavBytes_eq (pcm : List Nat) :
    createWavBytes pcm = wavHeaderBytes pcm.length ++ pcm.map (fun b => b % 256) := by
  have h1 : writeString (List.replicate 44 0) 0 "RIFF".toList =
      [82, 73, 70, 70, 0, 0, 0, 0, 0, 0, 0, 0, 0, 0, 0, 0, 0, 0, 0, 0, 0, 0, 0, 0, 0, 0, 0, 0, 0, 0, 0, 0, 0, 0, 0, 0, 0, 0, 0, 0, 0, 0, 0, 0] := by rfl
  have h2 : setUint32le ([82, 73, 70, 70, 0, 0, 0, 0, 0, 0, 0, 0, 0, 0, 0, 0, 0, 0, 0, 0, 0, 0, 0, 0, 0, 0, 0, 0, 0, 0, 0, 0, 0, 0, 0, 0, 0, 0, 0, 0, 0, 0, 0, 0]) 4 (36 + List.length pcm) =
      [82, 73, 70, 70, (36 + List.length pcm) % 4294967296 % 256, (36 + List.length pcm) % 4294967296 / 256 % 256, (36 + List.length pcm) % 4294967296 / 65536 % 256, (36 + List.length pcm) % 4294967296 / 16777216 % 256, 0, 0, 0, 0, 0, 0, 0, 0, 0, 0, 0, 0, 0, 0, 0, 0, 0, 0, 0, 0, 0, 0, 0, 0, 0, 0, 0, 0, 0, 0, 0, 0, 0, 0, 0, 0] := by rfl
  have h3 : writeString ([82, 73, 70, 70, (36 + List.length pcm) % 4294967296 % 256, (36 + List.length pcm) % 4294967296 / 256 % 256, (36 + List.length pcm) % 4294967296 / 65536 % 256, (36 + List.length pcm) % 4294967296 / 16777216 % 256, 0, 0, 0, 0, 0, 0, 0, 0, 0, 0, 0, 0, 0, 0, 0, 0, 0, 0, 0, 0, 0, 0, 0, 0, 0, 0, 0, 0, 0, 0, 0, 0, 0, 0, 0, 0]) 8 "WAVE".toList =
      [82, 73, 70, 70, (36 + List.length pcm) % 4294967296 % 256, (36 + List.length pcm) % 4294967296 / 256 % 256, (36 + List.length pcm) % 4294967296 / 65536 % 256, (36 + List.length pcm) % 4294967296 / 16777216 % 256, 87, 65, 86, 69, 0, 0, 0, 0, 0, 0, 0, 0, 0, 0, 0, 0, 0, 0, 0, 0, 0, 0, 0, 0, 0, 0, 0, 0, 0, 0, 0, 0, 0, 0, 0, 0] := by rfl
  have h4 : writeString ([82, 73, 70, 70, (36 + List.length pcm) % 4294967296 % 256, (36 + List.length pcm) % 4294967296 / 256 % 256, (36 + List.length pcm) % 4294967296 / 65536 % 256, (36 + List.length pcm) % 4294967296 / 16777216 % 256, 87, 65, 86, 69, 0, 0, 0, 0, 0, 0, 0, 0, 0, 0, 0, 0, 0, 0, 0, 0, 0, 0, 0, 0, 0, 0, 0, 0, 0, 0, 0, 0, 0, 0, 0, 0]) 12 "fmt ".toList =
      [82, 73, 70, 70, (36 + List.length pcm) % 4294967296 % 256, (36 + List.length pcm) % 4294967296 / 256 % 256, (36 + List.length pcm) % 4294967296 / 65536 % 256, (36 + List.length pcm) % 4294967296 / 16777216 % 256, 87, 65, 86, 69, 102, 109, 116, 32, 0, 0, 0, 0, 0, 0, 0, 0, 0, 0, 0, 0, 0, 0, 0, 0, 0, 0, 0, 0, 0, 0, 0, 0, 0, 0, 0, 0] := by rfl
  have h5 : setUint32le ([82, 73, 70, 70, (36 + List.length pcm) % 4294967296 % 256, (36 + List.length pcm) % 4294967296 / 256 % 256, (36 + List.length pcm) % 4294967296 / 65536 % 256, (36 + List.length pcm) % 4294967296 / 16777216 % 256, 87, 65, 86, 69, 102, 109, 116, 32, 0, 0, 0, 0, 0, 0, 0, 0, 0, 0, 0, 0, 0, 0, 0, 0, 0, 0, 0, 0, 0, 0, 0, 0, 0, 0, 0, 0]) 16 16 =
      [82, 73, 70, 70, (36 + List.length pcm) % 4294967296 % 256, (36 + List.length pcm) % 4294967296 / 256 % 256, (36 + List.length pcm) % 4294967296 / 65536 % 256, (36 + List.length pcm) % 4294967296 / 16777216 % 256, 87, 65, 86, 69, 102, 109, 116, 32, 16, 0, 0, 0, 0, 0, 0, 0, 0, 0, 0, 0, 0, 0, 0, 0, 0, 0, 0, 0, 0, 0, 0, 0, 0, 0, 0, 0] := by rfl
  have h6 : setUint16le ([82, 73, 70, 70, (36 + List.length pcm) % 4294967296 % 256, (36 + List.length pcm) % 4294967296 / 256 % 256, (36 + List.length pcm) % 4294967296 / 65536 % 256, (36 + List.length pcm) % 4294967296 / 16777216 % 256, 87, 65, 86, 69, 102, 109, 116, 32, 16, 0, 0, 0, 0, 0, 0, 0, 0, 0, 0, 0, 0, 0, 0, 0, 0, 0, 0, 0, 0, 0, 0, 0, 0, 0, 0, 0]) 20 1 =
      [82, 73, 70, 70, (36 + List.length pcm) % 4294967296 % 256, (36 + List.length pcm) % 4294967296 / 256 % 256, (36 + List.length pcm) % 4294967296 / 65536 % 256, (36 + List.length pcm) % 4294967296 / 16777216 % 256, 87, 65, 86, 69, 102, 109, 116, 32, 16, 0, 0, 0, 1, 0, 0, 0, 0, 0, 0, 0, 0, 0, 0, 0, 0, 0, 0, 0, 0, 0, 0, 0, 0, 0, 0, 0] := by rfl
  have h7 : setUint16le ([82, 73, 70, 70, (36 + List.length pcm) % 4294967296 % 256, (36 + List.length pcm) % 4294967296 / 256 % 256, (36 + List.length pcm) % 4294967296 / 65536 % 256, (36 + List.length pcm) % 4294967296 / 16777216 % 256, 87, 65, 86, 69, 102, 109, 116, 32, 16, 0, 0, 0, 1, 0, 0, 0, 0, 0, 0, 0, 0, 0, 0, 0, 0, 0, 0, 0, 0, 0, 0, 0, 0, 0, 0, 0]) 22 1 =
      [82, 73, 70, 70, (36 + List.length pcm) % 4294967296 % 256, (36 + List.length pcm) % 4294967296 / 256 % 256, (36 + List.length pcm) % 4294967296 / 65536 % 256, (36 + List.length pcm) % 4294967296 / 16777216 % 256, 87, 65, 86, 69, 102, 109, 116, 32, 16, 0, 0, 0, 1, 0, 1, 0, 0, 0, 0, 0, 0, 0, 0, 0, 0, 0, 0, 0, 0, 0, 0, 0, 0, 0, 0, 0] := by rfl
  have h8 : setUint32le ([82, 73, 70, 70, (36 + List.length pcm) % 4294967296 % 256, (36 + List.length pcm) % 4294967296 / 256 % 256, (36 + List.length pcm) % 4294967296 / 65536 % 256, (36 + List.length pcm) % 4294967296 / 16777216 % 256, 87, 65, 86, 69, 102, 109, 116, 32, 16, 0, 0, 0, 1, 0, 1, 0, 0, 0, 0, 0, 0, 0, 0, 0, 0, 0, 0, 0, 0, 0, 0, 0, 0, 0, 0, 0]) 24 24000 =
      [82, 73, 70, 70, (36 + List.length pcm) % 4294967296 % 256, (36 + List.length pcm) % 4294967296 / 256 % 256, (36 + List.length pcm) % 4294967296 / 65536 % 256, (36 + List.length pcm) % 4294967296 / 16777216 % 256, 87, 65, 86, 69, 102, 109, 116, 32, 16, 0, 0, 0, 1, 0, 1, 0, 192, 93, 0, 0, 0, 0, 0, 0, 0, 0, 0, 0, 0, 0, 0, 0, 0, 0, 0, 0] := by rfl
  have h9 : setUint32le ([82, 73, 70, 70, (36 + List.length pcm) % 4294967296 % 256, (36 + List.length pcm) % 4294967296 / 256 % 256, (36 + List.length pcm) % 4294967296 / 65536 % 256, (36 + List.length pcm) % 4294967296 / 16777216 % 256, 87, 65, 86, 69, 102, 109, 116, 32, 16, 0, 0, 0, 1, 0, 1, 0, 192, 93, 0, 0, 0, 0, 0, 0, 0, 0, 0, 0, 0, 0, 0, 0, 0, 0, 0, 0]) 28 (24000 * 1 * (16 / 8)) =
      [82, 73, 70, 70, (36 + List.length pcm) % 4294967296 % 256, (36 + List.length pcm) % 4294967296 / 256 % 256, (36 + List.length pcm) % 4294967296 / 65536 % 256, (36 + List.length pcm) % 4294967296 / 16777216 % 256, 87, 65, 86, 69, 102, 109, 116, 32, 16, 0, 0, 0, 1, 0, 1, 0, 192, 93, 0, 0, 128, 187, 0, 0, 0, 0, 0, 0, 0, 0, 0, 0, 0, 0, 0, 0] := by rfl
  have h10 : setUint16le ([82, 73, 70, 70, (36 + List.length pcm) % 4294967296 % 256, (36 + List.length pcm) % 4294967296 / 256 % 256, (36 + List.length pcm) % 4294967296 / 65536 % 256, (36 + List.length pcm) % 4294967296 / 16777216 % 256, 87, 65, 86, 69, 102, 109, 116, 32, 16, 0, 0, 0, 1, 0, 1, 0, 192, 93, 0, 0, 128, 187, 0, 0, 0, 0, 0, 0, 0, 0, 0, 0, 0, 0, 0, 0]) 32 (1 * (16 / 8)) =
      [82, 73, 70, 70, (36 + List.length pcm) % 4294967296 % 256, (36 + List.length pcm) % 4294967296 / 256 % 256, (36 + List.length pcm) % 4294967296 / 65536 % 256, (36 + List.length pcm) % 4294967296 / 16777216 % 256, 87, 65, 86, 69, 102, 109, 116, 32, 16, 0, 0, 0, 1, 0, 1, 0, 192, 93, 0, 0, 128, 187, 0, 0, 2, 0, 0, 0, 0, 0, 0, 0, 0, 0, 0, 0] := by rfl
  have h11 : setUint16le ([82, 73, 70, 70, (36 + List.length pcm) % 4294967296 % 256, (36 + List.length pcm) % 4294967296 / 256 % 256, (36 + List.length pcm) % 4294967296 / 65536 % 256, (36 + List.length pcm) % 4294967296 / 16777216 % 256, 87, 65, 86, 69, 102, 109, 116, 32, 16, 0, 0, 0, 1, 0, 1, 0, 192, 93, 0, 0, 128, 187, 0, 0, 2, 0, 0, 0, 0, 0, 0, 0, 0, 0, 0, 0]) 34 16 =
      [82, 73, 70, 70, (36 + List.length pcm) % 4294967296 % 256, (36 + List.length pcm) % 4294967296 / 256 % 256, (36 + List.length pcm) % 4294967296 / 65536 % 256, (36 + List.length pcm) % 4294967296 / 16777216 % 256, 87, 65, 86, 69, 102, 109, 116, 32, 16, 0, 0, 0, 1, 0, 1, 0, 192, 93, 0, 0, 128, 187, 0, 0, 2, 0, 16, 0, 0, 0, 0, 0, 0, 0, 0, 0] := by rfl
  have h12 : writeString ([82, 73, 70, 70, (36 + List.length pcm) % 4294967296 % 256, (36 + List.length pcm) % 4294967296 / 256 % 256, (36 + List.length pcm) % 4294967296 / 65536 % 256, (36 + List.length pcm) % 4294967296 / 16777216 % 256, 87, 65, 86, 69, 102, 109, 116, 32, 16, 0, 0, 0, 1, 0, 1, 0, 192, 93, 0, 0, 128, 187, 0, 0, 2, 0, 16, 0, 0, 0, 0, 0, 0, 0, 0, 0]) 36 "data".toList =
      [82, 73, 70, 70, (36 + List.length pcm) % 4294967296 % 256, (36 + List.length pcm) % 4294967296 / 256 % 256, (36 + List.length pcm) % 4294967296 / 65536 % 256, (36 + List.length pcm) % 4294967296 / 16777216 % 256, 87, 65, 86, 69, 102, 109, 116, 32, 16, 0, 0, 0, 1, 0, 1, 0, 192, 93, 0, 0, 128, 187, 0, 0, 2, 0, 16, 0, 100, 97, 116, 97, 0, 0, 0, 0] := by rfl
  have h13 : setUint32le ([82, 73, 70, 70, (36 + List.length pcm) % 4294967296 % 256, (36 + List.length pcm) % 4294967296 / 256 % 256, (36 + List.length pcm) % 4294967296 / 65536 % 256, (36 + List.length pcm) % 4294967296 / 16777216 % 256, 87, 65, 86, 69, 102, 109, 116, 32, 16, 0, 0, 0, 1, 0, 1, 0, 192, 93, 0, 0, 128, 187, 0, 0, 2, 0, 16, 0, 100, 97, 116, 97, 0, 0, 0, 0]) 40 (List.length pcm) =
      [82, 73, 70, 70, (36 + List.length pcm) % 4294967296 % 256, (36 + List.length pcm) % 4294967296 / 256 % 256, (36 + List.length pcm) % 4294967296 / 65536 % 256, (36 + List.length pcm) % 4294967296 / 16777216 % 256, 87, 65, 86, 69, 102, 109, 116, 32, 16, 0, 0, 0, 1, 0, 1, 0, 192, 93, 0, 0, 128, 187, 0, 0, 2, 0, 16, 0, 100, 97, 116, 97, List.length pcm % 4294967296 % 256, List.length pcm % 4294967296 / 256 % 256, List.length pcm % 4294967296 / 65536 % 256, List.length pcm % 4294967296 / 16777216 % 256] := by rfl
  show writeBytes _ 44 pcm = _
  rw [List.replicate_add,
      writeString_append "RIFF".toList (List.replicate 44 0) (List.replicate (List.length pcm) 0) 0 (by simp),
      h1,
      setUint32le_append ([82, 73, 70, 70, 0, 0, 0, 0, 0, 0, 0, 0, 0, 0, 0, 0, 0, 0, 0, 0, 0, 0, 0, 0, 0, 0, 0, 0, 0, 0, 0, 0, 0, 0, 0, 0, 0, 0, 0, 0, 0, 0, 0, 0]) (List.replicate (List.length pcm) 0) 4 (36 + List.length pcm) (by simp),
      h2,
      writeString_append "WAVE".toList ([82, 73, 70, 70, (36 + List.length pcm) % 4294967296 % 256, (36 + List.length pcm) % 4294967296 / 256 % 256, (36 + List.length pcm) % 4294967296 / 65536 % 256, (36 + List.length pcm) % 4294967296 / 16777216 % 256, 0, 0, 0, 0, 0, 0, 0, 0, 0, 0, 0, 0, 0, 0, 0, 0, 0, 0, 0, 0, 0, 0, 0, 0, 0, 0, 0, 0, 0, 0, 0, 0, 0, 0, 0, 0]) (List.replicate (List.length pcm) 0) 8 (by simp),
      h3,
      writeString_append "fmt ".toList ([82, 73, 70, 70, (36 + List.length pcm) % 4294967296 % 256, (36 + List.length pcm) % 4294967296 / 256 % 256, (36 + List.length pcm) % 4294967296 / 65536 % 256, (36 + List.length pcm) % 4294967296 / 16777216 % 256, 87, 65, 86, 69, 0, 0, 0, 0, 0, 0, 0, 0, 0, 0, 0, 0, 0, 0, 0, 0, 0, 0, 0, 0, 0, 0, 0, 0, 0, 0, 0, 0, 0, 0, 0, 0]) (List.replicate (List.length pcm) 0) 12 (by simp),
      h4,
      setUint32le_append ([82, 73, 70, 70, (36 + List.length pcm) % 4294967296 % 256, (36 + List.length pcm) % 4294967296 / 256 % 256, (36 + List.length pcm) % 4294967296 / 65536 % 256, (36 + List.length pcm) % 4294967296 / 16777216 % 256, 87, 65, 86, 69, 102, 109, 116, 32, 0, 0, 0, 0, 0, 0, 0, 0, 0, 0, 0, 0, 0, 0, 0, 0, 0, 0, 0, 0, 0, 0, 0, 0, 0, 0, 0, 0]) (List.replicate (List.length pcm) 0) 16 16 (by simp),
      h5,
      setUint16le_append ([82, 73, 70, 70, (36 + List.length pcm) % 4294967296 % 256, (36 + List.length pcm) % 4294967296 / 256 % 256, (36 + List.length pcm) % 4294967296 / 65536 % 256, (36 + List.length pcm) % 4294967296 / 16777216 % 256, 87, 65, 86, 69, 102, 109, 116, 32, 16, 0, 0, 0, 0, 0, 0, 0, 0, 0, 0, 0, 0, 0, 0, 0, 0, 0, 0, 0, 0, 0, 0, 0, 0, 0, 0, 0]) (List.replicate (List.length pcm) 0) 20 1 (by simp),
      h6,
      setUint16le_append ([82, 73, 70, 70, (36 + List.length pcm) % 4294967296 % 256, (36 + List.length pcm) % 4294967296 / 256 % 256, (36 + List.length pcm) % 4294967296 / 65536 % 256, (36 + List.length pcm) % 4294967296 / 16777216 % 256, 87, 65, 86, 69, 102, 109, 116, 32, 16, 0, 0, 0, 1, 0, 0, 0, 0, 0, 0, 0, 0, 0, 0, 0, 0, 0, 0, 0, 0, 0, 0, 0, 0, 0, 0, 0]) (List.replicate (List.length pcm) 0) 22 1 (by simp),
      h7,
      setUint32le_append ([82, 73, 70, 70, (36 + List.length pcm) % 4294967296 % 256, (36 + List.length pcm) % 4294967296 / 256 % 256, (36 + List.length pcm) % 4294967296 / 65536 % 256, (36 + List.length pcm) % 4294967296 / 16777216 % 256, 87, 65, 86, 69, 102, 109, 116, 32, 16, 0, 0, 0, 1, 0, 1, 0, 0, 0, 0, 0, 0, 0, 0, 0, 0, 0, 0, 0, 0, 0, 0, 0, 0, 0, 0, 0]) (List.replicate (List.length pcm) 0) 24 24000 (by simp),
      h8,
      setUint32le_append ([82, 73, 70, 70, (36 + List.length pcm) % 4294967296 % 256, (36 + List.length pcm) % 4294967296 / 256 % 256, (36 + List.length pcm) % 4294967296 / 65536 % 256, (36 + List.length pcm) % 4294967296 / 16777216 % 256, 87, 65, 86, 69, 102, 109, 116, 32, 16, 0, 0, 0, 1, 0, 1, 0, 192, 93, 0, 0, 0, 0, 0, 0, 0, 0, 0, 0, 0, 0, 0, 0, 0, 0, 0, 0]) (List.replicate (List.length pcm) 0) 28 (24000 * 1 * (16 / 8)) (by simp),
      h9,
      setUint16le_append ([82, 73, 70, 70, (36 + List.length pcm) % 4294967296 % 256, (36 + List.length pcm) % 4294967296 / 256 % 256, (36 + List.length pcm) % 4294967296 / 65536 % 256, (36 + List.length pcm) % 4294967296 / 16777216 % 256, 87, 65, 86, 69, 102, 109, 116, 32, 16, 0, 0, 0, 1, 0, 1, 0, 192, 93, 0, 0, 128, 187, 0, 0, 0, 0, 0, 0, 0, 0, 0, 0, 0, 0, 0, 0]) (List.replicate (List.length pcm) 0) 32 (1 * (16 / 8)) (by simp),
      h10,
      setUint16le_append ([82, 73, 70, 70, (36 + List.length pcm) % 4294967296 % 256, (36 + List.length pcm) % 4294967296 / 256 % 256, (36 + List.length pcm) % 4294967296 / 65536 % 256, (36 + List.length pcm) % 4294967296 / 16777216 % 256, 87, 65, 86, 69, 102, 109, 116, 32, 16, 0, 0, 0, 1, 0, 1, 0, 192, 93, 0, 0, 128, 187, 0, 0, 2, 0, 0, 0, 0, 0, 0, 0, 0, 0, 0, 0]) (List.replicate (List.length pcm) 0) 34 16 (by simp),
      h11,
      writeString_append "data".toList ([82, 73, 70, 70, (36 + List.length pcm) % 4294967296 % 256, (36 + List.length pcm) % 4294967296 / 256 % 256, (36 + List.length pcm) % 4294967296 / 65536 % 256, (36 + List.length pcm) % 4294967296 / 16777216 % 256, 87, 65, 86, 69, 102, 109, 116, 32, 16, 0, 0, 0, 1, 0, 1, 0, 192, 93, 0, 0, 128, 187, 0, 0, 2, 0, 16, 0, 0, 0, 0, 0, 0, 0, 0, 0]) (List.replicate (List.length pcm) 0) 36 (by simp),
      h12,
      setUint32le_append ([82, 73, 70, 70, (36 + List.length pcm) % 4294967296 % 256, (36 + List.length pcm) % 4294967296 / 256 % 256, (36 + List.length pcm) % 4294967296 / 65536 % 256, (36 + List.length pcm) % 4294967296 / 16777216 % 256, 87, 65, 86, 69, 102, 109, 116, 32, 16, 0, 0, 0, 1, 0, 1, 0, 192, 93, 0, 0, 128, 187, 0, 0, 2, 0, 16, 0, 100, 97, 116, 97, 0, 0, 0, 0]) (List.replicate (List.length pcm) 0) 40 (List.length pcm) (by simp),
      h13,
      writeBytes_fill pcm ([82, 73, 70, 70, (36 + List.length pcm) % 4294967296 % 256, (36 + List.length pcm) % 4294967296 / 256 % 256, (36 + List.length pcm) % 4294967296 / 65536 % 256, (36 + List.length pcm) % 4294967296 / 16777216 % 256, 87, 65, 86, 69, 102, 109, 116, 32, 16, 0, 0, 0, 1, 0, 1, 0, 192, 93, 0, 0, 128, 187, 0, 0, 2, 0, 16, 0, 100, 97, 116, 97, List.length pcm % 4294967296 % 256, List.length pcm % 4294967296 / 256 % 256, List.length pcm % 4294967296 / 65536 % 256, List.length pcm % 4294967296 / 16777216 % 256]) 44 (by simp)]
  rfl

theorem map_mod256_eq_self (l : List Nat) (h : ∀ b ∈ l, b < 256) :
    l.map (fun b => b % 256) = l := by
  induction l with
  | nil => rfl
  | cons b bs ih =>
      simp only [List.map_cons, List.cons.injEq]
      exact ⟨Nat.mod_eq_of_lt (h b (by simp)), ih (fun x hx => h x (by simp [hx]))⟩

/-- Claim C4: for every well-formed byte buffer (byte values below 256,
total size within the 32-bit field range that an ArrayBuffer can carry),
createWavBlob deterministically returns a buffer of length 44 plus the PCM
length: a 44-byte header followed by the PCM bytes verbatim, all
multi-byte fields little-endian, containing RIFF, RIFF chunk size
36 + dataSize, WAVE, fmt-space with sub-chunk size 16, audio format 1,
channels 1, sample rate 24000, byte rate 48000, block align 2, bits per
sample 16, then data and a data size field equal to the PCM length; being
a total function of its input it never raises and identical inputs give
byte-identical outputs. -/
theorem claim_C4_encodeWav (pcm : List Nat)
    (hbytes : ∀ b ∈ pcm, b < 256) (hlen : 36 + pcm.length < 4294967296) :
    (createWavBytes pcm).length = 44 + pcm.length ∧
    createWavBytes pcm = wavHeaderBytes pcm.length ++ pcm ∧
    (wavHeaderBytes pcm.length).length = 44 ∧
    (createWavBytes pcm).take 4 = [82, 73, 70, 70] ∧
    readU32le (createWavBytes pcm) 4 = 36 + pcm.length ∧
    ((createWavBytes pcm).drop 8).take 4 = [87, 65, 86, 69] ∧
    ((createWavBytes pcm).drop 12).take 4 = [102, 109, 116, 32] ∧
    readU32le (createWavBytes pcm) 16 = 16 ∧
    readU16le (createWavBytes pcm) 20 = 1 ∧
    readU16le (createWavBytes pcm) 22 = 1 ∧
    readU32le (createWavBytes pcm) 24 = 24000 ∧
    readU32le (createWavBytes pcm) 28 = 48000 ∧
    readU16le (createWavBytes pcm) 32 = 2 ∧
    readU16le (createWavBytes pcm) 34 = 16 ∧
    ((createWavBytes pcm).drop 36).take 4 = [100, 97, 116, 97] ∧
    readU32le (createWavBytes pcm) 40 = pcm.length ∧
    (createWavBytes pcm).drop 44 = pcm ∧
    (∀ pcm2, pcm = pcm2 → createWavBytes pcm = createWavBytes pcm2) := by
  have he : createWavBytes pcm = wavHeaderBytes pcm.length ++ pcm := by
    rw [createWavBytes_eq, map_mod256_eq_self pcm hbytes]
  rw [he]
  have a4 : (wavHeaderBytes pcm.length ++ pcm).getD 4 0 = (36 + pcm.length) % 4294967296 % 256 := rfl
  have a5 : (wavHeaderBytes pcm.length ++ pcm).getD 5 0 = (36 + pcm.length) % 4294967296 / 256 % 256 := rfl
  have a6 : (wavHeaderBytes pcm.length ++ pcm).getD 6 0 = (36 + pcm.length) % 4294967296 / 65536 % 256 := rfl
  have a7 : (wavHeaderBytes pcm.length ++ pcm).getD 7 0 = (36 + pcm.length) % 4294967296 / 16777216 % 256 := rfl
  have a16 : (wavHeaderBytes pcm.length ++ pcm).getD 16 0 = 16 := rfl
  have a17 : (wavHeaderBytes pcm.length ++ pcm).getD 17 0 = 0 := rfl
  have a18 : (wavHeaderBytes pcm.length ++ pcm).getD 18 0 = 0 := rfl
  have a19 : (wavHeaderBytes pcm.length ++ pcm).getD 19 0 = 0 := rfl
  have a20 : (wavHeaderBytes pcm.length ++ pcm).getD 20 0 = 1 := rfl
  have a21 : (wavHeaderBytes pcm.length ++ pcm).getD 21 0 = 0 := rfl
  have a22 : (wavHeaderBytes pcm.length ++ pcm).getD 22 0 = 1 := rfl
  have a23 : (wavHeaderBytes pcm.length ++ pcm).getD 23 0 = 0 := rfl
  have a24 : (wavHeaderBytes pcm.length ++ pcm).getD 24 0 = 192 := rfl
  have a25 : (wavHeaderBytes pcm.length ++ pcm).getD 25 0 = 93 := rfl
  have a26 : (wavHeaderBytes pcm.length ++ pcm).getD 26 0 = 0 := rfl
  have a27 : (wavHeaderBytes pcm.length ++ pcm).getD 27 0 = 0 := rfl
  have a28 : (wavHeaderBytes pcm.length ++ pcm).getD 28 0 = 128 := rfl
  have a29 : (wavHeaderBytes pcm.length ++ pcm).getD 29 0 = 187 := rfl
  have a30 : (wavHeaderBytes pcm.length ++ pcm).getD 30 0 = 0 := rfl
  have a31 : (wavHeaderBytes pcm.length ++ pcm).getD 31 0 = 0 := rfl
  have a32 : (wavHeaderBytes pcm.length ++ pcm).getD 32 0 = 2 := rfl
  have a33 : (wavHeaderBytes pcm.length ++ pcm).getD 33 0 = 0 := rfl
  have a34 : (wavHeaderBytes pcm.length ++ pcm).getD 34 0 = 16 := rfl
  have a35 : (wavHeaderBytes pcm.length ++ pcm).getD 35 0 = 0 := rfl
  have a40 : (wavHeaderBytes pcm.length ++ pcm).getD 40 0 = pcm.length % 4294967296 % 256 := rfl
  have a41 : (wavHeaderBytes pcm.length ++ pcm).getD 41 0 = pcm.length % 4294967296 / 256 % 256 := rfl
  have a42 : (wavHeaderBytes pcm.length ++ pcm).getD 42 0 = pcm.length % 4294967296 / 65536 % 256 := rfl
  have a43 : (wavHeaderBytes pcm.length ++ pcm).getD 43 0 = pcm.length % 4294967296 / 16777216 % 256 := rfl
  have hdrop : List.drop 44 (wavHeaderBytes pcm.length ++ pcm) = pcm := by
    have h44 : (44 : Nat) = (wavHeaderBytes pcm.length).length := by simp [wavHeaderBytes]
    rw [h44, List.drop_left]
  refine ⟨by simp [wavHeaderBytes]; omega, rfl, rfl, rfl,
      by rw [readU32le, a4, a5, a6, a7]; omega,
      rfl, rfl,
      by rw [readU32le, a16, a17, a18, a19],
      by rw [readU16le, a20, a21],
      by rw [readU16le, a22, a23],
      by rw [readU32le, a24, a25, a26, a27],
      by rw [readU32le, a28, a29, a30, a31],
      by rw [readU16le, a32, a33],
      by rw [readU16le, a34, a35],
      rfl,
      by rw [readU32le, a40, a41, a42, a43]; omega,
      hdrop, fun pcm2 hp => by rw [← hp, ← he]⟩

/-- Witness for C4 at the concrete PCM buffer [7, 255]. -/
theorem claim_C4_encodeWav_witness :
    (∀ b ∈ ([7, 255] : List Nat), b < 256) ∧
    36 + ([7, 255] : List Nat).length < 4294967296 ∧
    (createWavBytes [7, 255]).length = 44 + ([7, 255] : List Nat).length ∧
    readU32le (createWavBytes [7, 255]) 40 = ([7, 255] : List Nat).length ∧
    (createWavBytes [7, 255]).drop 44 = [7, 255] := by
  have h := claim_C4_encodeWav [7, 255] (by decide) (by decide)
  obtain ⟨hl, -, -, -, -, -, -, -, -, -, -, -, -, -, -, h40, hd, -⟩ := h
  exact ⟨by decide, by decide, hl, h40, hd⟩

/-! ## Properties of the advanceSequence handler -/

theorem nextVerseCatch_ref (s : CompState) (lastValidRef msg : String) :
    (nextVerseCatch s lastValidRef msg).bibleReference = lastValidRef := by
  unfold nextVerseCatch
  split_ifs <;> rfl

theorem nextVerseCatch_chars (s : CompState) (lastValidRef msg : String) :
    (nextVerseCatch s lastValidRef msg).characterDescriptions = s.characterDescriptions := by
  unfold nextVerseCatch
  split_ifs <;> rfl

/-- Claim C1: for every invocation of advanceSequence
(handleGenerateNextVerse) that fails, whether by the verse-not-found
outcome, a scene-description failure or an image-generation failure,
currentReference (bibleReference) after the operation equals its value
from before the call; it moves to the next verse only when both the
scene-description call and the image-generation call succeed. -/
theorem claim_C1_thm :
    ∀ (s : CompState) (sceneRes : JsResult SceneGenerationResult) (imgRes : JsResult String),
    (∀ msg, sceneRes = .thrown msg →
        (handleGenerateNextVerse s sceneRes imgRes).bibleReference = s.bibleReference) ∧
    (∀ r msg, sceneRes = .ok r → imgRes = .thrown msg →
        (handleGenerateNextVerse s sceneRes imgRes).bibleReference = s.bibleReference) ∧
    ((handleGenerateNextVerse s sceneRes imgRes).bibleReference ≠ s.bibleReference →
        (∃ r, sceneRes = .ok r) ∧ (∃ b, imgRes = .ok b) ∧
        (handleGenerateNextVerse s sceneRes imgRes).bibleReference = getNextVerseRef s) := by
  intro s sceneRes imgRes
  unfold handleGenerateNextVerse
  by_cases hg : getNextVerseRef s = "" ∨ s.characterDescriptions = none
  · simp [hg]
  · rw [if_neg hg]
    cases sceneRes with
    | thrown msg =>
        refine ⟨fun m hm => ?_, fun r m hr => by simp at hr, fun hne => ?_⟩
        · show (nextVerseCatch _ _ _).bibleReference = _
          rw [nextVerseCatch_ref]
        · exact absurd (by show (nextVerseCatch _ _ _).bibleReference = _; rw [nextVerseCatch_ref]) hne
    | ok r =>
        cases imgRes with
        | thrown msg =>
            refine ⟨fun m hm => by simp at hm, fun r2 m hr hm => ?_, fun hne => ?_⟩
            · show (nextVerseCatch _ _ _).bibleReference = _
              rw [nextVerseCatch_ref]
            · exact absurd (by show (nextVerseCatch _ _ _).bibleReference = _; rw [nextVerseCatch_ref]) hne
        | ok b =>
            exact ⟨fun m hm => by simp at hm, fun r2 m hr hm => by simp at hm,
                   fun hne => ⟨⟨r, rfl⟩, ⟨b, rfl⟩, rfl⟩⟩

/-- Reduction of the catch block on a VERSE_NOT_FOUND message. -/
theorem nextVerseCatch_vnf (s : CompState) (lastValidRef msg : String)
    (h : containsSub msg "VERSE_NOT_FOUND" = true) :
    nextVerseCatch s lastValidRef msg =
      { s with imageError := some msgChapterEnd, isSequenceActive := false,
               bibleReference := lastValidRef } := by
  unfold nextVerseCatch
  rw [if_pos h]

/-- Claim C2: when the scene-description request of an advanceSequence
call yields the distinguished verse-not-found outcome, the sequence
becomes inactive, currentReference reverts to the last confirmed
reference, and the chapter-ended boundary message is surfaced, which is
distinct from both the transient-error and the generic messages; the
service adapter turns an error field VERSE_NOT_FOUND into exactly the
thrown VERSE_NOT_FOUND message that the handler recognises. -/
theorem claim_C2_thm :
    ∀ (s : CompState) (msg : String) (imgRes : JsResult String),
    getNextVerseRef s ≠ "" → s.characterDescriptions ≠ none →
    containsSub msg "VERSE_NOT_FOUND" = true →
    (handleGenerateNextVerse s (.thrown msg) imgRes).isSequenceActive = false ∧
    (handleGenerateNextVerse s (.thrown msg) imgRes).bibleReference = s.bibleReference ∧
    (handleGenerateNextVerse s (.thrown msg) imgRes).imageError = some msgChapterEnd ∧
    msgChapterEnd ≠ msgServerRetryLong ∧
    msgChapterEnd ≠ msgNextVerseFallback ∧
    (∀ sp cd, generateImagePromptFromResponse ⟨sp, cd, some "VERSE_NOT_FOUND"⟩
        = .thrown "VERSE_NOT_FOUND") ∧
    containsSub "VERSE_NOT_FOUND" "VERSE_NOT_FOUND" = true := by
  intro s msg imgRes hg hc hvnf
  have hgg : ¬(getNextVerseRef s = "" ∨ s.characterDescriptions = none) := by
    rintro (h | h) <;> [exact hg h; exact hc h]
  unfold handleGenerateNextVerse
  rw [if_neg hgg]
  refine ⟨?_, ?_, ?_, by decide, by decide, fun sp cd => rfl, by decide⟩
  · show (nextVerseCatch _ _ _).isSequenceActive = false
    rw [nextVerseCatch_vnf _ _ _ hvnf]
  · show (nextVerseCatch _ _ _).bibleReference = _
    rw [nextVerseCatch_vnf _ _ _ hvnf]
  · show (nextVerseCatch _ _ _).imageError = _
    rw [nextVerseCatch_vnf _ _ _ hvnf]

/-- Claim C3 counterexample: in a state holding the character set
{Eva}, an advanceSequence call whose scene-description succeeds with the
set {Adão} and whose image call then fails with a transient error leaves
the character set at {Adão}, not at its value from before the call, so
the continuity set is not restored on this non-boundary failure. -/
theorem claim_C3_cex :
    (handleGenerateNextVerse
        { initialState with bibleReference := "Gênesis 1:5",
                            characterDescriptions := some [("Eva", "mulher de cabelo escuro")],
                            isSequenceActive := true }
        (.ok { scenePrompt := "cena", characterDescriptions := [("Adão", "homem de cabelo escuro")] })
        (.thrown "Rpc failed due to proxy")).characterDescriptions
      = some [("Adão", "homem de cabelo escuro")] ∧
    some [("Adão", "homem de cabelo escuro")] ≠
      ({ initialState with bibleReference := "Gênesis 1:5",
                           characterDescriptions := some [("Eva", "mulher de cabelo escuro")],
                           isSequenceActive := true } : CompState).characterDescriptions := by
  constructor
  · rfl
  · decide

/-- Claim C3 amended: on a non-boundary failure the reference is
restored, and when the scene-description call itself fails the continuity
set is untouched; but when the scene call succeeds and the image call
fails, the character set keeps the merged result of the successful scene
call: the catch block restores only the reference, never the character
set. -/
theorem claim_C3_amended_thm :
    ∀ (s : CompState),
    (∀ msg imgRes, (handleGenerateNextVerse s (.thrown msg) imgRes).characterDescriptions
        = s.characterDescriptions) ∧
    (∀ r msg, getNextVerseRef s ≠ "" → s.characterDescriptions ≠ none →
        (handleGenerateNextVerse s (.ok r) (.thrown msg)).characterDescriptions
            = some r.characterDescriptions ∧
        (handleGenerateNextVerse s (.ok r) (.thrown msg)).bibleReference = s.bibleReference) := by
  intro s
  constructor
  · intro msg imgRes
    unfold handleGenerateNextVerse
    by_cases hg : getNextVerseRef s = "" ∨ s.characterDescriptions = none
    · rw [if_pos hg]
    · rw [if_neg hg]
      show (nextVerseCatch _ _ _).characterDescriptions = _
      rw [nextVerseCatch_chars]
  · intro r msg hg hc
    have hgg : ¬(getNextVerseRef s = "" ∨ s.characterDescriptions = none) := by
      rintro (h | h) <;> [exact hg h; exact hc h]
    unfold handleGenerateNextVerse
    rw [if_neg hgg]
    exact ⟨by show (nextVerseCatch _ _ _).characterDescriptions = _; rw [nextVerseCatch_chars],
           by show (nextVerseCatch _ _ _).bibleReference = _; rw [nextVerseCatch_ref]⟩

/-- Claim C5: after a successful scene-description result is merged, the
character set equals exactly the characterDescriptions of the returned
result, a full replace rather than a union, so any character present
before the merge but absent from the result is dropped; and the service
builds that record from the returned array by the reduce. -/
theorem claim_C5_thm :
    ∀ (s : CompState) (r : SceneGenerationResult) (imgRes : JsResult String),
    getNextVerseRef s ≠ "" → s.characterDescriptions ≠ none →
    (handleGenerateNextVerse s (.ok r) imgRes).characterDescriptions
        = some r.characterDescriptions ∧
    (∀ k, r.characterDescriptions.find? (fun p => p.1 = k) = none →
        ((handleGenerateNextVerse s (.ok r) imgRes).characterDescriptions.getD []).find?
            (fun p => p.1 = k) = none) ∧
    (∀ sp cds res, generateImagePromptFromResponse ⟨some sp, some cds, none⟩ = .ok res →
        res.characterDescriptions = buildCharMap cds) := by
  intro s r imgRes hg hc
  have hgg : ¬(getNextVerseRef s = "" ∨ s.characterDescriptions = none) := by
    rintro (h | h) <;> [exact hg h; exact hc h]
  have hchars : (handleGenerateNextVerse s (.ok r) imgRes).characterDescriptions
      = some r.characterDescriptions := by
    unfold handleGenerateNextVerse
    rw [if_neg hgg]
    cases imgRes with
    | thrown msg =>
        show (nextVerseCatch _ _ _).characterDescriptions = _
        rw [nextVerseCatch_chars]
    | ok b => rfl
  refine ⟨hchars, fun k hk => by rw [hchars]; exact hk, fun sp cds res hres => ?_⟩
  unfold generateImagePromptFromResponse at hres
  by_cases hsp : sp = ""
  · simp [hsp] at hres
  · simp [hsp] at hres
    rw [← hres]

/-- Claim C8 counterexample: handleGenerateImage runs
setGeneratedImage(null) before the service call, so in a state with a
previously stored image a failing call ends with generatedImage null,
not with its value from before the call. -/
theorem claim_C8_cex :
    (handleGenerateImage
        { initialState with promptText := "cena do jardim",
                            generatedImage := some "data:image/jpeg;base64,antiga" }
        (.thrown "boom")).generatedImage = none ∧
    ({ initialState with promptText := "cena do jardim",
                         generatedImage := some "data:image/jpeg;base64,antiga" }
        : CompState).generatedImage ≠ none := by
  constructor
  · rfl
  · decide

/-- Claim C8 amended: if generateImage fails, the active flag, the
current reference and the character set are unchanged, but
lastGeneratedImage is cleared at the start of the call; on success the
sequence is marked active and the resulting image bytes are stored. -/
theorem claim_C8_amended_thm :
    ∀ (s : CompState), jsTrimStr s.promptText ≠ "" → s.isImageLoading = false →
    (∀ msg, (handleGenerateImage s (.thrown msg)).isSequenceActive = s.isSequenceActive ∧
            (handleGenerateImage s (.thrown msg)).bibleReference = s.bibleReference ∧
            (handleGenerateImage s (.thrown msg)).characterDescriptions = s.characterDescriptions ∧
            (handleGenerateImage s (.thrown msg)).generatedImage = none) ∧
    (∀ b, (handleGenerateImage s (.ok b)).isSequenceActive = true ∧
          (handleGenerateImage s (.ok b)).generatedImage
              = some ("data:image/jpeg;base64," ++ b)) := by
  intro s hp hl
  have hgg : ¬(jsTrimStr s.promptText = "" ∨ s.isImageLoading = true) := by
    rintro (h | h) <;> [exact hp h; exact absurd (hl.symm.trans h) (by decide)]
  constructor
  · intro msg
    unfold handleGenerateImage
    rw [if_neg hgg]
    refine ⟨?_, ?_, ?_, ?_⟩ <;> (cases ht : isTransientMsg msg <;> simp only [ht] <;> rfl)
  · intro b
    unfold handleGenerateImage
    rw [if_neg hgg]
    exact ⟨rfl, rfl⟩

/-- Claim C9 counterexample: the advanceSequence handler has no
in-flight guard at all, so invoking it while the audio operation is in
flight proceeds past the precondition check and mutates state, advancing
the reference. -/
theorem claim_C9_cex :
    ({ initialState with bibleReference := "Gênesis 1:1",
                         characterDescriptions := some [("Adão", "homem")],
                         isSequenceActive := true,
                         isAudioLoading := true } : CompState).isAudioLoading = true ∧
    (handleGenerateNextVerse
        { initialState with bibleReference := "Gênesis 1:1",
                            characterDescriptions := some [("Adão", "homem")],
                            isSequenceActive := true,
                            isAudioLoading := true }
        (.ok { scenePrompt := "cena", characterDescriptions := [("Adão", "homem")] })
        (.ok "img")).bibleReference = "Gênesis 1:2" ∧
    ("Gênesis 1:2" : String) ≠ "Gênesis 1:1" := by
  refine ⟨rfl, ?_, by decide⟩
  rfl

/-- Claim C9 amended: only the image-generation, verse-text-fetch and
audio-generation handlers reject re-entrant invocation of themselves,
through their own loading flag, as a synchronous state-preserving no-op
independent of the service outcome; prompt generation and advanceSequence
have no in-flight guard, and no handler checks the flags of the other
operations. -/
theorem claim_C9_amended_thm :
    ∀ (s : CompState),
    (s.isImageLoading = true → ∀ res, handleGenerateImage s res = s) ∧
    (s.isFetchingVerse = true → ∀ res, handleFetchVerseText s res = s) ∧
    (s.isAudioLoading = true → ∀ res newHandle, handleGenerateAudioClick s res newHandle = s) := by
  intro s
  refine ⟨fun h res => ?_, fun h res => ?_, fun h res newHandle => ?_⟩
  · unfold handleGenerateImage
    rw [if_pos (Or.inr h)]
  · unfold handleFetchVerseText
    rw [if_pos (Or.inr h)]
  · unfold handleGenerateAudioClick
    rw [if_pos (Or.inr h)]

/-- Claim C10 counterexample: for the language code constructor, which is
outside the five supported codes, the lookup languageMap[language] finds
the truthy constructor property inherited from Object.prototype, so the
|| never reaches the fallback: the source does not issue the request with
Português (Brasil) for this unsupported code. -/
theorem claim_C10_cex :
    ("constructor" ∉ ["pt-BR", "en-US", "es-ES", "fr-FR", "de-DE"]) ∧
    resolveLanguageName "constructor" = LanguageName.protoValue "constructor" ∧
    LanguageName.protoValue "constructor" ≠ LanguageName.str "Português (Brasil)" := by
  exact ⟨by decide, by decide, by decide⟩

/-- Claim C10 amended: for every language code outside the five supported
codes that is not a property name inherited from Object.prototype,
fetchVerseText does not fail: the lookup falls back to Português
(Brasil), the issued request prompt is identical to the one of a call
with the supported code pt-BR, and the processing of the response does
not depend on the language at all; for the inherited property names the
fallback is suppressed by the truthy prototype value. -/
theorem claim_C10_amended_thm :
    ∀ (lang : String), lang ∉ ["pt-BR", "en-US", "es-ES", "fr-FR", "de-DE"] →
    lang ∉ objectProtoKeys →
    resolveLanguageName lang = LanguageName.str "Português (Brasil)" ∧
    (∀ ref, getVerseTextPrompt ref lang = getVerseTextPrompt ref "pt-BR") ∧
    resolveLanguageName "pt-BR" = LanguageName.str "Português (Brasil)" ∧
    (∀ responseText, getVerseTextResult responseText = getVerseTextResult responseText) := by
  intro lang hmem hproto
  simp only [List.mem_cons, List.not_mem_nil, or_false, not_or] at hmem
  obtain ⟨h1, h2, h3, h4, h5⟩ := hmem
  have d1 : decide ("pt-BR" = lang) = false := decide_eq_false (fun h => h1 h.symm)
  have d2 : decide ("en-US" = lang) = false := decide_eq_false (fun h => h2 h.symm)
  have d3 : decide ("es-ES" = lang) = false := decide_eq_false (fun h => h3 h.symm)
  have d4 : decide ("fr-FR" = lang) = false := decide_eq_false (fun h => h4 h.symm)
  have d5 : decide ("de-DE" = lang) = false := decide_eq_false (fun h => h5 h.symm)
  have hres : resolveLanguageName lang = LanguageName.str "Português (Brasil)" := by
    unfold resolveLanguageName languageMap
    simp only [List.find?, d1, d2, d3, d4, d5]
    rw [if_neg hproto]
  refine ⟨hres, fun ref => ?_, rfl, fun _ => rfl⟩
  unfold getVerseTextPrompt
  rw [hres]
  rfl

/-- Witness for C1. -/
theorem claim_C1_witness :
    (handleGenerateNextVerse
        { initialState with bibleReference := "Gênesis 1:5",
                            characterDescriptions := some [("Adão", "homem")] }
        (.thrown "VERSE_NOT_FOUND") (.ok "img")).bibleReference
      = ({ initialState with bibleReference := "Gênesis 1:5",
                             characterDescriptions := some [("Adão", "homem")] }
          : CompState).bibleReference :=
  (claim_C1_thm _ _ _).1 "VERSE_NOT_FOUND" rfl

/-- Witness for C2. -/
theorem claim_C2_witness :
    (handleGenerateNextVerse
        { initialState with bibleReference := "Gênesis 1:5",
                            characterDescriptions := some [("Adão", "homem")],
                            isSequenceActive := true }
        (.thrown "VERSE_NOT_FOUND") (.ok "img")).isSequenceActive = false ∧
    (handleGenerateNextVerse
        { initialState with bibleReference := "Gênesis 1:5",
                            characterDescriptions := some [("Adão", "homem")],
                            isSequenceActive := true }
        (.thrown "VERSE_NOT_FOUND") (.ok "img")).bibleReference = "Gênesis 1:5" ∧
    (handleGenerateNextVerse
        { initialState with bibleReference := "Gênesis 1:5",
                            characterDescriptions := some [("Adão", "homem")],
                            isSequenceActive := true }
        (.thrown "VERSE_NOT_FOUND") (.ok "img")).imageError = some msgChapterEnd := by
  have h := claim_C2_thm
    { initialState with bibleReference := "Gênesis 1:5",
                        characterDescriptions := some [("Adão", "homem")],
                        isSequenceActive := true }
    "VERSE_NOT_FOUND" (.ok "img") (by decide) (by decide) (by decide)
  exact ⟨h.1, h.2.1, h.2.2.1⟩

/-- Witness for the amended C3. -/
theorem claim_C3_amended_witness :
    (handleGenerateNextVerse
        { initialState with bibleReference := "Gênesis 1:5",
                            characterDescriptions := some [("Eva", "mulher")] }
        (.ok { scenePrompt := "cena", characterDescriptions := [("Adão", "homem")] })
        (.thrown "500")).characterDescriptions = some [("Adão", "homem")] :=
  ((claim_C3_amended_thm _).2
      { scenePrompt := "cena", characterDescriptions := [("Adão", "homem")] }
      "500" (by decide) (by decide)).1

/-- Witness for C5. -/
theorem claim_C5_witness :
    (handleGenerateNextVerse
        { initialState with bibleReference := "Gênesis 1:5",
                            characterDescriptions := some [("Eva", "mulher")] }
        (.ok { scenePrompt := "cena", characterDescriptions := [("Adão", "homem")] })
        (.ok "img")).characterDescriptions = some [("Adão", "homem")] :=
  (claim_C5_thm _
      { scenePrompt := "cena", characterDescriptions := [("Adão", "homem")] }
      (.ok "img") (by decide) (by decide)).1

/-- Witness for the amended C8. -/
theorem claim_C8_amended_witness :
    (handleGenerateImage { initialState with promptText := "cena" }
        (.ok "img")).isSequenceActive = true :=
  ((claim_C8_amended_thm { initialState with promptText := "cena" }
      (by decide) rfl).2 "img").1

/-- Witness for the amended C9. -/
theorem claim_C9_amended_witness :
    handleGenerateImage { initialState with isImageLoading := true } (.ok "img")
      = { initialState with isImageLoading := true } :=
  (claim_C9_amended_thm { initialState with isImageLoading := true }).1 rfl (.ok "img")

/-- Witness for the amended C10 at the concrete unsupported code xx-YY. -/
theorem claim_C10_amended_witness :
    getVerseTextPrompt "Gênesis 1:1" "xx-YY" = getVerseTextPrompt "Gênesis 1:1" "pt-BR" :=
  (claim_C10_amended_thm "xx-YY" (by decide) (by decide)).2.1 "Gênesis 1:1"

/-! ## Properties of the audio-handle lifecycle -/

/-- Claim C7 counterexample: two successful narration generations in a
row revoke the first object URL twice, once explicitly in the handler and
once by the effect cleanup when the dependency changes, so release is not
exactly-once. -/
theorem claim_C7_cex :
    (audioRun audioInit [.setText "a", .generate (.ok "zz"), .generate (.ok "yy")]).revoked
      = [0, 0] ∧
    ((audioRun audioInit [.setText "a", .generate (.ok "zz"), .generate (.ok "yy")]).revoked.count 0
      = 2) := by
  constructor <;> rfl

theorem handleAudioGenerate_some_ok (s : AudioSession) (u : Nat) (b : String)
    (hg : ¬(jsTrimStr s.textForNarration = "" ∨ s.isAudioLoading = true))
    (hurl : s.generatedAudioUrl = some u) (heff : s.effectUrl = some u) :
    handleAudioGenerate s (.ok b) =
      { s with isAudioLoading := false, audioError := none,
               generatedAudioUrl := some s.nextHandle, nextHandle := s.nextHandle + 1,
               narratedText := some s.textForNarration,
               effectUrl := some s.nextHandle,
               revoked := (s.revoked ++ [u]) ++ [u] } := by
  unfold handleAudioGenerate runAudioEffect
  rw [if_neg hg]
  simp [hurl, heff]

theorem handleAudioGenerate_some_thrown (s : AudioSession) (u : Nat) (msg : String)
    (hg : ¬(jsTrimStr s.textForNarration = "" ∨ s.isAudioLoading = true))
    (hurl : s.generatedAudioUrl = some u) (heff : s.effectUrl = some u) :
    handleAudioGenerate s (.thrown msg) =
      { s with isAudioLoading := false,
               audioError := some (if isTransientMsg msg then msgServerRetryShort
                 else "Ocorreu um erro ao gerar o áudio. Por favor, tente novamente."),
               generatedAudioUrl := none, narratedText := none,
               effectUrl := none,
               revoked := (s.revoked ++ [u]) ++ [u] } := by
  unfold handleAudioGenerate runAudioEffect
  rw [if_neg hg]
  by_cases ht : isTransientMsg msg = true <;> simp [hurl, heff, ht]

theorem handleAudioGenerate_none_ok (s : AudioSession) (b : String)
    (hg : ¬(jsTrimStr s.textForNarration = "" ∨ s.isAudioLoading = true))
    (hurl : s.generatedAudioUrl = none) (heff : s.effectUrl = none) :
    handleAudioGenerate s (.ok b) =
      { s with isAudioLoading := false, audioError := none,
               generatedAudioUrl := some s.nextHandle, nextHandle := s.nextHandle + 1,
               narratedText := some s.textForNarration,
               effectUrl := some s.nextHandle } := by
  unfold handleAudioGenerate runAudioEffect
  rw [if_neg hg]
  simp [hurl, heff]

theorem handleAudioGenerate_none_thrown (s : AudioSession) (msg : String)
    (hg : ¬(jsTrimStr s.textForNarration = "" ∨ s.isAudioLoading = true))
    (hurl : s.generatedAudioUrl = none) (heff : s.effectUrl = none) :
    handleAudioGenerate s (.thrown msg) =
      { s with isAudioLoading := false,
               audioError := some (if isTransientMsg msg then msgServerRetryShort
                 else "Ocorreu um erro ao gerar o áudio. Por favor, tente novamente."),
               generatedAudioUrl := none, narratedText := none } := by
  unfold handleAudioGenerate runAudioEffect
  rw [if_neg hg]
  by_cases ht : isTransientMsg msg = true <;> simp [hurl, heff, ht]

theorem audioStep_inv (s : AudioSession) (e : AudioEvent)
    (h1 : s.generatedAudioUrl = s.effectUrl)
    (h2 : ∀ h, h < s.nextHandle → h ∈ s.revoked ∨ s.generatedAudioUrl = some h) :
    (audioStep s e).generatedAudioUrl = (audioStep s e).effectUrl ∧
    (∀ h, h < (audioStep s e).nextHandle →
        h ∈ (audioStep s e).revoked ∨ (audioStep s e).generatedAudioUrl = some h) := by
  cases e with
  | setText t => exact ⟨h1, h2⟩
  | generate res =>
      simp only [audioStep]
      by_cases hg : jsTrimStr s.textForNarration = "" ∨ s.isAudioLoading = true
      · unfold handleAudioGenerate
        rw [if_pos hg]
        exact ⟨h1, h2⟩
      · cases hurl : s.generatedAudioUrl with
        | some u =>
            have heff : s.effectUrl = some u := h1 ▸ hurl
            cases res with
            | ok b =>
                rw [handleAudioGenerate_some_ok s u b hg hurl heff]
                refine ⟨rfl, fun h hh => ?_⟩
                simp only at hh ⊢
                rcases Nat.lt_succ_iff_lt_or_eq.mp hh with hlt | heq
                · rcases h2 h hlt with hr | hu
                  · exact Or.inl (by simp [hr])
                  · have huh : h = u := by
                      rw [hurl] at hu
                      exact (Option.some_inj.mp hu).symm
                    exact Or.inl (by simp [huh])
                · exact Or.inr (by rw [heq])
            | thrown msg =>
                rw [handleAudioGenerate_some_thrown s u msg hg hurl heff]
                refine ⟨rfl, fun h hh => ?_⟩
                simp only at hh ⊢
                rcases h2 h hh with hr | hu
                · exact Or.inl (by simp [hr])
                · have huh : h = u := by
                    rw [hurl] at hu
                    exact (Option.some_inj.mp hu).symm
                  exact Or.inl (by simp [huh])
        | none =>
            have heff : s.effectUrl = none := h1 ▸ hurl
            cases res with
            | ok b =>
                rw [handleAudioGenerate_none_ok s b hg hurl heff]
                refine ⟨rfl, fun h hh => ?_⟩
                simp only at hh ⊢
                rcases Nat.lt_succ_iff_lt_or_eq.mp hh with hlt | heq
                · rcases h2 h hlt with hr | hu
                  · exact Or.inl hr
                  · exact absurd (hurl ▸ hu) (by simp)
                · exact Or.inr (by rw [heq])
            | thrown msg =>
                rw [handleAudioGenerate_none_thrown s msg hg hurl heff]
                refine ⟨heff.symm, fun h hh => ?_⟩
                simp only at hh ⊢
                rcases h2 h hh with hr | hu
                · exact Or.inl hr
                · exact absurd (hurl ▸ hu) (by simp)

theorem audioRun_inv (evs : List AudioEvent) (s : AudioSession)
    (h1 : s.generatedAudioUrl = s.effectUrl)
    (h2 : ∀ h, h < s.nextHandle → h ∈ s.revoked ∨ s.generatedAudioUrl = some h) :
    (audioRun s evs).generatedAudioUrl = (audioRun s evs).effectUrl ∧
    (∀ h, h < (audioRun s evs).nextHandle →
        h ∈ (audioRun s evs).revoked ∨ (audioRun s evs).generatedAudioUrl = some h) := by
  induction evs generalizing s with
  | nil => exact ⟨h1, h2⟩
  | cons e evs ih =>
      have hstep := audioStep_inv s e h1 h2
      exact ih (audioStep s e) hstep.1 hstep.2

/-- Claim C7 amended: across repeated narration generations every
created audio handle is released at least once: after any event sequence
followed by teardown, every handle ever created appears in the revocation
log, and a handler invocation that replaces a held handle revokes the old
handle during that call; release is however not exactly-once, since a
replaced handle is revoked both by the handler and by the effect
cleanup. -/
theorem claim_C7_amended_thm :
    (∀ evs h, h < (audioUnmount (audioRun audioInit evs)).nextHandle →
        h ∈ (audioUnmount (audioRun audioInit evs)).revoked) ∧
    (∀ (s : AudioSession) (res : JsResult String) (u : Nat),
        s.generatedAudioUrl = some u → s.effectUrl = some u →
        ¬(jsTrimStr s.textForNarration = "" ∨ s.isAudioLoading = true) →
        u ∈ (handleAudioGenerate s res).revoked) := by
  constructor
  · intro evs h hh
    have hinv := audioRun_inv evs audioInit rfl (fun h hh => absurd hh (by simp [audioInit]))
    obtain ⟨h1, h2⟩ := hinv
    unfold audioUnmount at hh ⊢
    revert hh
    cases heff : (audioRun audioInit evs).effectUrl with
    | some u =>
        intro hh
        rcases h2 h hh with hr | hu
        · simp [hr]
        · have huh : h = u := by
            rw [h1, heff] at hu
            exact (Option.some_inj.mp hu).symm
          simp [huh]
    | none =>
        intro hh
        rcases h2 h hh with hr | hu
        · exact hr
        · rw [h1, heff] at hu
          exact absurd hu (by simp)
  · intro s res u hurl heff hg
    cases res with
    | ok b => rw [handleAudioGenerate_some_ok s u b hg hurl heff]; simp
    | thrown msg => rw [handleAudioGenerate_some_thrown s u msg hg hurl heff]; simp

/-- Witness for the amended C7. -/
theorem claim_C7_amended_witness :
    (0 : Nat) ∈ (audioUnmount (audioRun audioInit [.setText "a", .generate (.ok "zz")])).revoked :=
  claim_C7_amended_thm.1 [.setText "a", .generate (.ok "zz")] 0 (by decide)

/-! ## Properties of the reference parser -/

theorem isJsSpace_of_isJsDigit (c : Char) (h : isJsDigit c = true) : isJsSpace c = false := by
  unfold isJsDigit at h
  unfold isJsSpace
  simp only [decide_eq_true_eq] at h
  simp only [Bool.or_eq_false_iff, decide_eq_false_iff_not]
  omega

theorem isJsDigit_of_isJsSpace (c : Char) (h : isJsSpace c = true) : isJsDigit c = false := by
  unfold isJsSpace at h
  unfold isJsDigit
  simp only [Bool.or_eq_true, decide_eq_true_eq] at h
  simp only [decide_eq_false_iff_not]
  omega

theorem takeWhile_all_eq {α : Type} (p : α → Bool) (l : List α) (h : l.all p = true) :
    l.takeWhile p = l := by
  induction l with
  | nil => rfl
  | cons a as ih =>
      simp only [List.all_cons, Bool.and_eq_true] at h
      simp [List.takeWhile_cons, h.1, ih h.2]

theorem dropWhile_all_eq {α : Type} (p : α → Bool) (l : List α) (h : l.all p = true) :
    l.dropWhile p = [] := by
  induction l with
  | nil => rfl
  | cons a as ih =>
      simp only [List.all_cons, Bool.and_eq_true] at h
      simp [List.dropWhile_cons, h.1, ih h.2]

theorem takeWhile_append_stop {α : Type} (p : α → Bool) (l : List α) (x : α) (rest : List α)
    (hl : l.all p = true) (hx : p x = false) :
    (l ++ x :: rest).takeWhile p = l := by
  induction l with
  | nil => simp [List.takeWhile_cons, hx]
  | cons a as ih =>
      simp only [List.all_cons, Bool.and_eq_true] at hl
      simp [List.takeWhile_cons, hl.1, ih hl.2]

theorem dropWhile_append_stop {α : Type} (p : α → Bool) (l : List α) (x : α) (rest : List α)
    (hl : l.all p = true) (hx : p x = false) :
    (l ++ x :: rest).dropWhile p = x :: rest := by
  induction l with
  | nil => simp [List.dropWhile_cons, hx]
  | cons a as ih =>
      simp only [List.all_cons, Bool.and_eq_true] at hl
      simp [List.dropWhile_cons, hl.1, ih hl.2]

/-- The tail regex accepts digits-colon-digits exactly. -/
theorem matchTailRef_exact (c v : List Char)
    (hc : c ≠ []) (hcd : c.all isJsDigit = true)
    (hv : v ≠ []) (hvd : v.all isJsDigit = true) :
    matchTailRef (c ++ ':' :: v) = some (c, v) := by
  obtain ⟨c0, c', rfl⟩ := List.exists_cons_of_ne_nil hc
  have hc0 : isJsDigit c0 = true := by
    simp only [List.all_cons, Bool.and_eq_true] at hcd
    exact hcd.1
  simp only [matchTailRef]
  have h1 : ((c0 :: c' ++ ':' :: v).dropWhile isJsSpace) = c0 :: c' ++ ':' :: v := by
    simp [List.dropWhile_cons, isJsSpace_of_isJsDigit c0 hc0]
  have h2 : ((c0 :: c' ++ ':' :: v).takeWhile isJsDigit) = c0 :: c' :=
    takeWhile_append_stop isJsDigit (c0 :: c') ':' v hcd (by decide)
  have h3 : ((c0 :: c' ++ ':' :: v).dropWhile isJsDigit) = ':' :: v :=
    dropWhile_append_stop isJsDigit (c0 :: c') ':' v hcd (by decide)
  rw [h1, h2, h3]
  have hvne : v.isEmpty = false := by
    cases v with
    | nil => exact absurd rfl hv
    | cons a as => rfl
  simp [hvne, hvd]

/-- The tail regex rejects a bare all-digit string (no colon remains). -/
theorem matchTailRef_digits_none (v : List Char)
    (hv : v ≠ []) (hvd : v.all isJsDigit = true) :
    matchTailRef v = none := by
  obtain ⟨v0, v', rfl⟩ := List.exists_cons_of_ne_nil hv
  have hv0 : isJsDigit v0 = true := by
    simp only [List.all_cons, Bool.and_eq_true] at hvd
    exact hvd.1
  simp only [matchTailRef]
  have h1 : ((v0 :: v').dropWhile isJsSpace) = v0 :: v' := by
    simp [List.dropWhile_cons, isJsSpace_of_isJsDigit v0 hv0]
  have h2 : ((v0 :: v').takeWhile isJsDigit) = v0 :: v' := takeWhile_all_eq _ _ hvd
  have h3 : ((v0 :: v').dropWhile isJsDigit) = [] := dropWhile_all_eq _ _ hvd
  rw [h1, h2, h3]
  simp

/-- The backtracking attempt at the position of the last book character
succeeds and captures exactly the decomposition. -/
theorem tryAt_exact (p c v : List Char) (hp : p ≠ [])
    (hpd : isJsDigit (p.getLast hp) = false)
    (hc : c ≠ []) (hcd : c.all isJsDigit = true)
    (hv : v ≠ []) (hvd : v.all isJsDigit = true) :
    tryAt (p ++ c ++ ':' :: v) (p.length - 1) = some (p, c, v) := by
  have hsplit : p ++ c ++ ':' :: v = p.dropLast ++ (p.getLast hp :: (c ++ ':' :: v)) := by
    conv_lhs => rw [← List.dropLast_append_getLast hp]
    simp
  have hlen : p.length - 1 = p.dropLast.length := (List.length_dropLast p).symm
  unfold tryAt
  rw [hsplit, hlen, List.drop_left]
  simp only [hpd, Bool.false_eq_true, if_false, matchTailRef_exact c v hc hcd hv hvd]
  have htake : p.dropLast.length + 1 = p.length := by
    rw [List.length_dropLast]
    have := List.length_pos.mpr hp
    omega
  rw [htake, ← hsplit]
  rw [List.take_append_of_le_length (by simp),
      List.take_append_of_le_length (le_refl p.length), List.take_length]

/-- Every backtracking attempt strictly beyond the book segment fails:
the one-character \D either lands on a digit of the chapter or verse
capture, or on the colon, after which the tail regex cannot find its
colon any more. -/
theorem tryAt_none_ge (p c v : List Char)
    (hcd : c.all isJsDigit = true)
    (hv : v ≠ []) (hvd : v.all isJsDigit = true)
    (n : Nat) (hn : p.length ≤ n) :
    tryAt (p ++ c ++ ':' :: v) n = none := by
  obtain ⟨m, rfl⟩ := Nat.exists_eq_add_of_le hn
  have hdrop : (p ++ c ++ ':' :: v).drop (p.length + m) = (c ++ ':' :: v).drop m := by
    rw [List.append_assoc, List.drop_append]
  unfold tryAt
  rw [hdrop]
  rcases Nat.lt_trichotomy m c.length with hm | hm | hm
  · rw [List.drop_append_of_le_length (le_of_lt hm)]
    have hne : c.drop m ≠ [] := by
      rw [Ne, List.drop_eq_nil_iff]
      omega
    obtain ⟨d, rest, heq⟩ := List.exists_cons_of_ne_nil hne
    rw [heq]
    have hd : d ∈ c := List.drop_subset m c (heq ▸ List.mem_cons_self d rest)
    have hdd : isJsDigit d = true := List.all_eq_true.mp hcd d hd
    simp [hdd]
  · subst hm
    rw [List.drop_left]
    have hmt : matchTailRef v = none := matchTailRef_digits_none v hv hvd
    simp [hmt]
  · have hm2 : m = c.length + (m - c.length) := by omega
    rw [hm2, List.drop_append]
    have hk : m - c.length = (m - c.length - 1) + 1 := by omega
    rw [hk, List.drop_succ_cons]
    cases hdk : v.drop (m - c.length - 1) with
    | nil => rfl
    | cons d rest =>
        have hd : d ∈ v := List.drop_subset _ v (hdk ▸ List.mem_cons_self d rest)
        have hdd : isJsDigit d = true := List.all_eq_true.mp hvd d hd
        simp [hdd]

theorem getLastD_eq_getLast {α : Type} (l : List α) (d : α) (h : l ≠ []) :
    l.getLastD d = l.getLast h := by
  rw [List.getLastD_eq_getLast?, List.getLast?_eq_getLast l h]
  rfl

/-- The greedy loop returns the first success counting down. -/
theorem searchFrom_finds :
    ∀ (m : Nat) (s : List Char) (n0 : Nat) (r : List Char × List Char × List Char),
    n0 ≤ m → tryAt s n0 = some r → (∀ k, n0 < k → tryAt s k = none) →
    searchFrom s m = some r := by
  intro m
  induction m with
  | zero =>
      intro s n0 r hm hs _
      have h0 : n0 = 0 := Nat.le_zero.mp hm
      subst h0
      simpa [searchFrom] using hs
  | succ m ih =>
      intro s n0 r hm hs hf
      by_cases h : n0 = m + 1
      · subst h
        simp [searchFrom, hs]
      · have h2 : n0 ≤ m := by omega
        have hfm : tryAt s (m + 1) = none := hf (m + 1) (by omega)
        simp only [searchFrom, hfm]
        exact ih s n0 r h2 hs hf

/-- A successful search comes from a successful attempt. -/
theorem searchFrom_some :
    ∀ (m : Nat) (s : List Char) (r : List Char × List Char × List Char),
    searchFrom s m = some r → ∃ n, n ≤ m ∧ tryAt s n = some r := by
  intro m
  induction m with
  | zero =>
      intro s r h
      exact ⟨0, le_refl 0, by simpa [searchFrom] using h⟩
  | succ m ih =>
      intro s r h
      simp only [searchFrom] at h
      cases ht : tryAt s (m + 1) with
      | some r2 =>
          rw [ht] at h
          simp only [Option.some_inj] at h
          exact ⟨m + 1, le_refl _, by rw [ht, h]⟩
      | none =>
          rw [ht] at h
          obtain ⟨n, hn, h2⟩ := ih s r h
          exact ⟨n, by omega, h2⟩

/-- Inversion of the tail regex. -/
theorem matchTailRef_some (t c v : List Char)
    (h : matchTailRef t = some (c, v)) :
    ∃ w, t = w ++ c ++ ':' :: v ∧ w.all isJsSpace = true ∧ c ≠ [] ∧
      c.all isJsDigit = true ∧ v ≠ [] ∧ v.all isJsDigit = true := by
  simp only [matchTailRef] at h
  split at h
  · exact absurd h (by simp)
  · rename_i hce
    split at h
    · rename_i t3 ht2
      split at h
      · exact absurd h (by simp)
      · split at h
        · rename_i ht3e ht3d
          simp only [Option.some_inj, Prod.mk.injEq] at h
          obtain ⟨hc, hv⟩ := h
          refine ⟨t.takeWhile isJsSpace, ?_, List.all_takeWhile, ?_, hc ▸ List.all_takeWhile,
              ?_, hv ▸ ht3d⟩
          · conv_lhs => rw [← List.takeWhile_append_dropWhile isJsSpace t]
            rw [← List.takeWhile_append_dropWhile isJsDigit (t.dropWhile isJsSpace), hc, ht2, hv]
            simp
          · intro h0
            exact hce (by rw [hc, h0]; rfl)
          · intro h0
            exact ht3e (by rw [hv, h0]; rfl)
        · exact absurd h (by simp)
    · exact absurd h (by simp)

/-- Inversion of one backtracking attempt. -/
theorem tryAt_some (s : List Char) (n : Nat) (g1 c v : List Char)
    (h : tryAt s n = some (g1, c, v)) :
    ∃ d w, s.drop n = d :: (w ++ c ++ ':' :: v) ∧ isJsDigit d = false ∧
      w.all isJsSpace = true ∧ g1 = s.take (n + 1) ∧ c ≠ [] ∧ c.all isJsDigit = true ∧
      v ≠ [] ∧ v.all isJsDigit = true := by
  unfold tryAt at h
  split at h
  · exact absurd h (by simp)
  · rename_i d rest hdrop
    split at h
    · exact absurd h (by simp)
    · rename_i hd
      have hdf : isJsDigit d = false := by
        cases hb : isJsDigit d with
        | false => rfl
        | true => exact absurd hb hd
      split at h
      · rename_i c2 v2 hmt
        simp only [Option.some_inj, Prod.mk.injEq] at h
        obtain ⟨hg, hc2, hv2⟩ := h
        obtain ⟨w, hw, hws, hcne, hcd, hvne, hvd⟩ := matchTailRef_some rest c2 v2 hmt
        subst hc2
        subst hv2
        exact ⟨d, w, by rw [hdrop, hw], hdf, hws, hg.symm, hcne, hcd, hvne, hvd⟩
      · exact absurd h (by simp)

/-- Completeness of the parser on the grammar, for book segments free of
line terminators. -/
theorem parseBibleRef_complete (ref : String) (p c v : List Char)
    (hdec : jsTrim ref.toList = p ++ c ++ ':' :: v)
    (hp : p ≠ []) (hplt : p.all (fun ch => !isLineTerm ch) = true)
    (hpd : isJsDigit (p.getLastD ' ') = false)
    (hc : c ≠ []) (hcd : c.all isJsDigit = true)
    (hv : v ≠ []) (hvd : v.all isJsDigit = true) :
    parseBibleRef ref
      = some { book := String.mk (jsTrim p), chapter := natOfDigits c,
               verse := natOfDigits v } := by
  have hlast : p.getLastD ' ' = p.getLast hp := getLastD_eq_getLast p ' ' hp
  have htry : tryAt (p ++ c ++ ':' :: v) (p.length - 1) = some (p, c, v) :=
    tryAt_exact p c v hp (by rw [← hlast]; exact hpd) hc hcd hv hvd
  have hplen : 0 < p.length := List.length_pos.mpr hp
  have hfail : ∀ k, p.length - 1 < k → tryAt (p ++ c ++ ':' :: v) k = none := by
    intro k hk
    exact tryAt_none_ge p c v hcd hv hvd k (by omega)
  have hstart : p.length - 1
      ≤ ((p ++ c ++ ':' :: v).takeWhile (fun ch => !isLineTerm ch)).length := by
    rw [List.append_assoc, List.takeWhile_append, takeWhile_all_eq _ p hplt, if_pos rfl]
    simp only [List.length_append]
    omega
  have hsearch := searchFrom_finds _ (p ++ c ++ ':' :: v) (p.length - 1) (p, c, v)
    hstart htry hfail
  simp only [parseBibleRef, hdec, hsearch]

theorem getLastD_concat {α : Type} (l : List α) (x d : α) : (l ++ [x]).getLastD d = x := by
  rw [getLastD_eq_getLast _ d (by simp)]
  exact List.getLast_concat _

/-- Soundness of the parser: a parse yields a grammar decomposition. -/
theorem parseBibleRef_sound (ref : String) (r : ScriptureRef)
    (h : parseBibleRef ref = some r) :
    ∃ p c v, jsTrim ref.toList = p ++ c ++ ':' :: v ∧ p ≠ [] ∧
      isJsDigit (p.getLastD ' ') = false ∧ c ≠ [] ∧ c.all isJsDigit = true ∧
      v ≠ [] ∧ v.all isJsDigit = true := by
  simp only [parseBibleRef] at h
  split at h
  · rename_i g1 c v hsearch
    obtain ⟨n, hn, htry⟩ := searchFrom_some _ _ _ hsearch
    obtain ⟨d, w, hdrop, hdf, hws, hg1, hcne, hcd, hvne, hvd⟩ :=
      tryAt_some (jsTrim ref.toList) n g1 c v htry
    refine ⟨(jsTrim ref.toList).take n ++ d :: w, c, v, ?_, by simp, ?_, hcne, hcd, hvne, hvd⟩
    · conv_lhs => rw [← List.take_append_drop n (jsTrim ref.toList)]
      rw [hdrop]
      simp
    · rcases List.eq_nil_or_concat w with hwn | ⟨w2, x, hwx⟩
      · subst hwn
        have hld : ((jsTrim ref.toList).take n ++ (d :: ([] : List Char))).getLastD ' ' = d :=
          getLastD_concat _ d ' '
        rw [hld]
        exact hdf
      · subst hwx
        have hx : isJsSpace x = true := by
          have hm : x ∈ w2.concat x := by simp
          exact List.all_eq_true.mp hws x hm
        have hassoc : (jsTrim ref.toList).take n ++ d :: w2.concat x
            = ((jsTrim ref.toList).take n ++ d :: w2) ++ [x] := by
          simp [List.concat_eq_append]
        have hld : ((jsTrim ref.toList).take n ++ d :: w2.concat x).getLastD ' ' = x := by
          rw [hassoc, getLastD_concat]
        rw [hld]
        exact isJsDigit_of_isJsSpace x hx
  · exact absurd h (by simp)

/-- Claim C6 counterexample: on the string a-linefeed-b-space-1:2 the
grammar of the claim matches (book segment a-linefeed-b-space ending in a
non-digit, chapter 1, verse 2), yet parseBibleRef returns null, because
the regex dot does not match the interior line terminator. -/
theorem claim_C6_cex :
    parseBibleRef "a\nb 1:2" = none ∧
    jsTrim ("a\nb 1:2".toList) = ['a', '\n', 'b', ' '] ++ ['1'] ++ ':' :: ['2'] ∧
    (['a', '\n', 'b', ' '] : List Char) ≠ [] ∧
    isJsDigit ((['a', '\n', 'b', ' '] : List Char).getLastD ' ') = false ∧
    (['1'] : List Char) ≠ [] ∧ (['1'] : List Char).all isJsDigit = true ∧
    (['2'] : List Char) ≠ [] ∧ (['2'] : List Char).all isJsDigit = true := by
  decide

/-- Claim C6 amended: parse matches the rightmost int-colon-int suffix
preceded by at least one non-digit character and trims whitespace on the
book segment; for every reference string matching this grammar whose book
segment is free of line terminators and whose chapter and verse numerals
denote values of at most 2^53 (the range on which the source IEEE-754
parseInt and number stringification are exact, so that the Nat model
coincides with the program), parse is non-null, returns the trimmed book
with the numeric chapter and verse, and format of the parse result is the
normalized book-space-chapter-colon-verse form; conversely any string on
which parse succeeds matches the grammar, so a non-matching string yields
null (the total Option type shows no exception is possible). -/
theorem claim_C6_amended_thm :
    (∀ (ref : String) (p c v : List Char),
        jsTrim ref.toList = p ++ c ++ ':' :: v →
        p ≠ [] → p.all (fun ch => !isLineTerm ch) = true →
        isJsDigit (p.getLastD ' ') = false →
        c ≠ [] → c.all isJsDigit = true → v ≠ [] → v.all isJsDigit = true →
        natOfDigits c ≤ 9007199254740992 → natOfDigits v ≤ 9007199254740992 →
        parseBibleRef ref
          = some ⟨String.mk (jsTrim p), natOfDigits c, natOfDigits v⟩ ∧
        (parseBibleRef ref).map formatBibleRef
          = some (String.mk (jsTrim p) ++ " " ++ toString (natOfDigits c) ++ ":"
              ++ toString (natOfDigits v))) ∧
    (∀ (ref : String) (r : ScriptureRef), parseBibleRef ref = some r →
        ∃ p c v, jsTrim ref.toList = p ++ c ++ ':' :: v ∧ p ≠ [] ∧
          isJsDigit (p.getLastD ' ') = false ∧ c ≠ [] ∧ c.all isJsDigit = true ∧
          v ≠ [] ∧ v.all isJsDigit = true) := by
  constructor
  · intro ref p c v hdec hp hplt hpd hc hcd hv hvd hcbound hvbound
    have h1 := parseBibleRef_complete ref p c v hdec hp hplt hpd hc hcd hv hvd
    exact ⟨h1, by rw [h1]; rfl⟩
  · exact parseBibleRef_sound

/-- Witness for the amended C6 at the reference string of the spec
scenarios. -/
theorem claim_C6_amended_witness :
    parseBibleRef "Gênesis 1:5" = some { book := "Gênesis", chapter := 1, verse := 5 } ∧
    (parseBibleRef "Gênesis 1:5").map formatBibleRef = some "Gênesis 1:5" := by
  have h := claim_C6_amended_thm.1 "Gênesis 1:5"
    ['G', 'ê', 'n', 'e', 's', 'i', 's', ' '] ['1'] ['5']
    (by decide) (by decide) (by decide) (by decide) (by decide) (by decide)
    (by decide) (by decide) (by decide) (by decide)
  exact ⟨h.1.trans (by decide), h.2.trans (by decide)⟩
